import Mathlib

/-!
Verification development for the daily-story generation core
(johntchampion/daily-story).  The TypeScript source is shallowly embedded:
pure string manipulation becomes functions on `List Char` / `String`,
the provider (batch API) and the file store become explicit state values,
and the orchestration routines become pure functions from those states to
their results plus the list of file writes they perform.
-/

/- ===== JavaScript string primitives =====
These mirror the ECMAScript behaviour of the string operations the
repository uses: `String.prototype.trim`, the `\s` character class,
`toLowerCase` (on the ASCII data the repository handles),
`padStart(2, '0')`, `split`, and number-to-string conversion. -/

/-- Character class of ECMAScript `\s` (WhiteSpace plus LineTerminator):
tab, LF, VT, FF, CR, space, NBSP, Ogham space mark, the U+2000 range,
LS, PS, narrow no-break space, medium mathematical space, ideographic
space and BOM. -/
def isJsSpace (c : Char) : Bool :=
  c = ' ' || c = '\t' || c = '\n' || c = '\x0b' || c = '\x0c' || c = '\r' ||
  c = ' ' || c = ' ' ||
  (' ' ≤ c && c ≤ ' ') ||
  c = ' ' || c = ' ' || c = ' ' || c = ' ' ||
  c = '　' || c = '﻿'

/-- JS `String.prototype.trim` on the character list. -/
def jsTrimL (l : List Char) : List Char :=
  ((l.dropWhile isJsSpace).reverse.dropWhile isJsSpace).reverse

/-- JS `String.prototype.trim`. -/
def jsTrim (s : String) : String := String.mk (jsTrimL s.data)

/-- ASCII lowercasing, the behaviour of JS `toLowerCase` on the ASCII
language and level names this repository passes through it. -/
def jsToLower (s : String) : String := String.mk (s.data.map Char.toLower)

/-- JS `String.prototype.split(sep)` for a one-character separator:
splits on every occurrence and keeps empty segments. -/
def jsSplitCharL (sep : Char) : List Char → List (List Char)
  | [] => [[]]
  | c :: rest =>
    let r := jsSplitCharL sep rest
    if c = sep then
      [] :: r
    else
      match r with
      | [] => [[c]]
      | seg :: segs => (c :: seg) :: segs

/-- JS `split` of a string on a one-character separator. -/
def jsSplitChar (sep : Char) (s : String) : List String :=
  (jsSplitCharL sep s.data).map String.mk

/-- JS `String.prototype.padStart(2, '0')`. -/
def padStart2 (s : String) : String :=
  if s.data.length ≥ 2 then s
  else String.mk (List.replicate (2 - s.data.length) '0' ++ s.data)

/-- The decimal digit character of a value below ten (larger values
never reach the final branch in use). -/
def digitChar (n : Nat) : Char :=
  if n = 0 then '0' else if n = 1 then '1' else if n = 2 then '2'
  else if n = 3 then '3' else if n = 4 then '4' else if n = 5 then '5'
  else if n = 6 then '6' else if n = 7 then '7' else if n = 8 then '8'
  else '9'

/-- Decimal digit list of a natural number, most significant first.
Structural recursion on a fuel bound (any fuel above the value's digit
count, in particular the wrapper's `n + 1`, never reaches the base
case: each step divides the value by ten, which strictly decreases
it). -/
def natDigitsGo : Nat → Nat → List Char
  | 0, _ => []
  | fuel + 1, n =>
    if n < 10 then [digitChar n]
    else natDigitsGo fuel (n / 10) ++ [digitChar (n % 10)]

/-- Decimal digit list of a natural number, most significant first. -/
def natDigits (n : Nat) : List Char := natDigitsGo (n + 1) n

/-- JS number-to-string conversion for integer values (decimal; the
exponential form JS switches to beyond 1e21 is outside the magnitudes
this repository produces). -/
def jsIntToString (n : Int) : String :=
  if n < 0 then String.mk ('-' :: natDigits (-n).toNat)
  else String.mk (natDigits n.toNat)

/-- JS truthiness of an optional string: `undefined` and the empty string
are falsy. -/
def jsTruthy : Option String → Bool
  | none => false
  | some s => s ≠ ""

/-- JS `a || b` on an optional string (used as `parts[i] || fallback`). -/
def jsOrElse (o : Option String) (fallback : String) : String :=
  match o with
  | none => fallback
  | some s => if s = "" then fallback else s

/-- JS array indexing with an integer index, `undefined` out of bounds. -/
def jsIndex (l : List String) (i : Int) : Option String :=
  if 0 ≤ i then l.get? i.toNat else none

/-- JS `substring(a, b)` on the character list (for `0 ≤ a ≤ b`). -/
def jsSubstringL (l : List Char) (a b : Nat) : List Char :=
  (l.drop a).take (b - a)

/-- JS `substring(a, b)`. -/
def jsSubstring (s : String) (a b : Nat) : String :=
  String.mk (jsSubstringL s.data a b)

/- ===== cleanJsonString (src/util.ts lines 386-451) =====
The free-text cleaning pass is embedded stage by stage.  Each stage
reproduces the effect of one statement of the TypeScript function, with
the JS regular expressions hand-compiled to recursive functions on the
character list (lazy groups, multiline anchors and the backtracking of
`\s*\n` are spelled out where they matter). -/

/-- Structural JSON characters of the line-skip test: braces, brackets
and the comma. -/
def isStructChar (c : Char) : Bool :=
  c = '\x7b' || c = '\x7d' || c = '[' || c = ']' || c = ','

/-- Test of the structural-line regex: optionally one structural
character surrounded by whitespace. -/
def isStructuralLine (l : List Char) : Bool :=
  match l.dropWhile isJsSpace with
  | [] => true
  | c :: rest => isStructChar c && rest.all isJsSpace

/-- Escape loop of `cleanJsonString`: a backslash keeps itself and the
following character, an unescaped double quote becomes an escaped one,
everything else is copied (a trailing lone backslash is copied as-is). -/
def escapeContent : List Char → List Char
  | [] => []
  | '\\' :: c :: rest => '\\' :: c :: escapeContent rest
  | '"' :: rest => '\\' :: '"' :: escapeContent rest
  | c :: rest => c :: escapeContent rest

/-- Characters the ECMAScript dot does not match: the line terminators
LF, CR, LS, PS. -/
def isJsLineTerminator (c : Char) : Bool :=
  c = '\n' || c = '\r' || c = ' ' || c = ' '

/-- Suffix test of the property-line regex: a closing quote, an optional
comma, then whitespace up to the end of the line. -/
def propSuffixOk : List Char → Bool
  | '"' :: rest =>
    (match rest with
     | ',' :: rest2 => rest2.all isJsSpace
     | _ => rest.all isJsSpace)
  | _ => false

/-- Lazy search for the split of the remainder of a property line into
the content group and the closing-quote suffix group: the earliest
position whose tail matches the suffix wins, and the content group may
not contain a line terminator (the JS dot does not match those). -/
def findPropSplit : List Char → Option (List Char × List Char)
  | [] => none
  | c :: rest =>
    if propSuffixOk (c :: rest) then
      some ([], c :: rest)
    else if isJsLineTerminator c then
      none
    else
      match findPropSplit rest with
      | some (content, suf) => some (c :: content, suf)
      | none => none

/-- Parse of the prefix group of the property-line regex: leading
whitespace, a quoted non-empty property name, a colon and the opening
quote of the value.  Returns the matched prefix and the rest of the
line. -/
def parsePropPrefix (l : List Char) : Option (List Char × List Char) :=
  let ws := l.takeWhile isJsSpace
  let r1 := l.dropWhile isJsSpace
  match r1 with
  | '"' :: r2 =>
    let nameChars := r2.takeWhile (fun c => c ≠ '"')
    let r3 := r2.dropWhile (fun c => c ≠ '"')
    if nameChars.isEmpty then none
    else
      match r3 with
      | '"' :: r4 =>
        let ws2 := r4.takeWhile isJsSpace
        let r5 := r4.dropWhile isJsSpace
        match r5 with
        | ':' :: r6 =>
          let ws3 := r6.takeWhile isJsSpace
          let r7 := r6.dropWhile isJsSpace
          match r7 with
          | '"' :: r8 =>
            some (ws ++ '"' :: nameChars ++ '"' :: ws2 ++ ':' :: ws3 ++ ['"'], r8)
          | _ => none
        | _ => none
      | _ => none
  | _ => none

/-- Per-line transformation of `cleanJsonString`: structural lines are
kept; lines matching the property regex with a non-empty content group
(JS tests the captured content for truthiness, so an empty content group
also leaves the line unchanged) get their content group escaped. -/
def transformLine (l : List Char) : List Char :=
  if isStructuralLine l then l
  else
    match parsePropPrefix l with
    | none => l
    | some (pre, rest) =>
      match findPropSplit rest with
      | none => l
      | some (content, suf) =>
        if content.isEmpty then l
        else pre ++ escapeContent content ++ suf

/-- Smart-quote normalisation: the double-quote variants U+201C, U+201D,
U+201E, U+201F become a straight double quote and the single-quote
variants U+2018, U+2019, U+201A, U+201B become an ASCII apostrophe. -/
def normalizeQuoteChar (c : Char) : Char :=
  if c = '“' || c = '”' || c = '„' || c = '‟' then '"'
  else if c = '‘' || c = '’' || c = '‚' || c = '‛' then '\x27'
  else c

/-- Replacement of a comma followed by whitespace and a closing bracket
by the bracket alone, globally left to right, with scanning resuming
after each replaced bracket, as JS `replace` with the global flag does.
Structural recursion on a fuel bound: every step continues on a strictly
shorter list, so any fuel above the list length (in particular the
wrapper's `length + 1`) never reaches the base case. -/
def stripTrailingCommasGo : Nat → List Char → List Char
  | 0, l => l
  | _ + 1, [] => []
  | fuel + 1, ',' :: rest =>
    (match rest.dropWhile isJsSpace with
     | c :: r3 =>
       if c = '\x7d' || c = ']' then c :: stripTrailingCommasGo fuel r3
       else ',' :: stripTrailingCommasGo fuel rest
     | [] => ',' :: stripTrailingCommasGo fuel rest)
  | fuel + 1, c :: rest => c :: stripTrailingCommasGo fuel rest

/-- The trailing-comma replacement pass. -/
def stripTrailingCommasL (l : List Char) : List Char :=
  stripTrailingCommasGo (l.length + 1) l

/-- Candidate content-start suffixes for the whitespace-then-newline part
of the fence regexes, in the greedy backtracking order: the star first
consumes as much whitespace as possible, then backtracks until the next
character is a newline, so the candidates are the suffixes after each
newline inside the whitespace run, latest newline first. -/
def wsNlCandidates (t : List Char) : List (List Char) :=
  let w := t.takeWhile isJsSpace
  let idxs := (List.range w.length).filter (fun i => w.get? i = some '\n')
  idxs.reverse.map (fun i => t.drop (i + 1))

/-- Case-insensitive test for the literal `json` (the fence regexes carry
the case-insensitive flag). -/
def startsWithJsonCI : List Char → Bool
  | c1 :: c2 :: c3 :: c4 :: _ =>
    c1.toLower = 'j' && c2.toLower = 's' && c3.toLower = 'o' && c4.toLower = 'n'
  | _ => false

/-- After a closing triple backtick, trailing whitespace up to a
multiline end anchor is satisfiable iff skipping non-newline whitespace
reaches a newline or the end of the string. -/
def closeTailOk (t : List Char) : Bool :=
  match t.dropWhile (fun c => isJsSpace c && c ≠ '\n') with
  | [] => true
  | c :: _ => c = '\n'

/-- Lazy scan for the closing fence (a newline, three backticks,
whitespace, end anchor) of the fence-extraction regex: returns the
characters before the earliest closing fence, if any. -/
def findFenceClose : List Char → Option (List Char)
  | [] => none
  | c :: rest =>
    if c = '\n' ∧ rest.take 3 = ['`', '`', '`'] ∧ closeTailOk (rest.drop 3) then
      some []
    else
      match findFenceClose rest with
      | some inner => some (c :: inner)
      | none => none

/-- First successful result of an option-producing function on a list of
candidates. -/
def firstSomeL (f : List Char → Option (List Char)) : List (List Char) → Option (List Char)
  | [] => none
  | c :: rest =>
    match f c with
    | some r => some r
    | none => firstSomeL f rest

/-- Attempt of the fence-extraction regex at one line start: an opening
triple backtick, an optional case-insensitive `json`, the backtracking
whitespace-then-newline, then the lazy content group closed by a closing
fence. -/
def fenceMatchAt (l : List Char) : Option (List Char) :=
  if l.take 3 = ['`', '`', '`'] then
    let t := l.drop 3
    let cands :=
      (if startsWithJsonCI t then wsNlCandidates (t.drop 4) else []) ++ wsNlCandidates t
    firstSomeL findFenceClose cands
  else none

/-- Scan of the non-global fence-extraction match: the first line start
(position zero or right after a newline) where the fence pattern matches
wins; the captured content group is returned.  Structural recursion on a
fuel bound, one unit per scanned position (fuel above the list length
never reaches the base case). -/
def fenceFirstMatchGo : Nat → List Char → Bool → Option (List Char)
  | 0, _, _ => none
  | fuel + 1, l, atLineStart =>
    match (if atLineStart then fenceMatchAt l else none) with
    | some g => some g
    | none =>
      match l with
      | [] => none
      | c :: rest => fenceFirstMatchGo fuel rest (c = '\n')

/-- The fence-extraction scan over a whole string, starting at a line
start. -/
def fenceFirstMatch (l : List Char) (atLineStart : Bool) : Option (List Char) :=
  fenceFirstMatchGo (l.length + 1) l atLineStart

/-- Greedy match of one opening-fence occurrence for the global
opening-fence replacement: triple backtick, optional case-insensitive
`json`, then all following whitespace (the star already absorbs any
newline, so the optional newline adds nothing).  Returns the rest of the
string after the match together with whether the position after the
match is a line start (i.e. the last deleted character was a
newline). -/
def openFenceReplMatch (l : List Char) : Option (List Char × Bool) :=
  if l.take 3 = ['`', '`', '`'] then
    let t := l.drop 3
    let t2 := if startsWithJsonCI t then t.drop 4 else t
    let run := t2.takeWhile isJsSpace
    some (t2.drop run.length, run.getLast? = some '\n')
  else none

/-- Replacement pass deleting every opening fence at a line start,
globally, with scanning resuming after each match.  Structural recursion
on a fuel bound: a match consumes at least three characters and a
non-match advances one, so any fuel above the list length (in particular
the wrapper's `length + 1`) never reaches the base case. -/
def stripOpenFencesGo : Nat → List Char → Bool → List Char
  | 0, l, _ => l
  | _ + 1, [], _ => []
  | fuel + 1, c :: rest, atLineStart =>
    if atLineStart then
      match openFenceReplMatch (c :: rest) with
      | some (r, ls) => stripOpenFencesGo fuel r ls
      | none => c :: stripOpenFencesGo fuel rest (c = '\n')
    else c :: stripOpenFencesGo fuel rest (c = '\n')

/-- The opening-fence replacement pass over a whole string, starting at
a line start. -/
def stripOpenFences (l : List Char) (atLineStart : Bool) : List Char :=
  stripOpenFencesGo (l.length + 1) l atLineStart

/-- Number of characters of whitespace the closing-fence replacement
consumes after the backticks: the whole run when it reaches the end of
the string (the end anchor holds there), otherwise up to the latest
newline inside the run (the zero-width multiline end anchor holds just
before a newline); no consumable amount means no match. -/
def closeFenceKOf (u : List Char) : Option Nat :=
  if (u.takeWhile isJsSpace).length = u.length then some u.length
  else
    ((List.range (u.takeWhile isJsSpace).length).filter
      (fun i => u.get? i = some '\n')).max?

/-- Greedy match of one closing-fence occurrence for the global
closing-fence replacement, starting at the three backticks.  Returns the
rest of the string after the match. -/
def closeFenceRepl (t : List Char) : Option (List Char) :=
  if t.take 3 = ['`', '`', '`'] then
    (closeFenceKOf (t.drop 3)).map (fun k => (t.drop 3).drop k)
  else none

/-- Attempt of the closing-fence replacement at one position: the
optional leading newline is tried greedily first; without a leading
newline the backticks must start at the position itself. -/
def closeFenceAt (l : List Char) : Option (List Char) :=
  if l.take 1 = ['\n'] then closeFenceRepl (l.drop 1) else closeFenceRepl l

/-- Replacement pass deleting every closing fence, globally, with
scanning resuming after each match.  Structural recursion on a fuel
bound: a match consumes at least three characters and a non-match
advances one, so any fuel above the list length (in particular the
wrapper's `length + 1`) never reaches the base case. -/
def stripCloseFencesGo : Nat → List Char → List Char
  | 0, l => l
  | _ + 1, [] => []
  | fuel + 1, c :: rest =>
    match closeFenceAt (c :: rest) with
    | some r => stripCloseFencesGo fuel r
    | none => c :: stripCloseFencesGo fuel rest

/-- The closing-fence replacement pass over a whole string. -/
def stripCloseFences (l : List Char) : List Char :=
  stripCloseFencesGo (l.length + 1) l

/-- JS `split` on newlines. -/
def splitNl (l : List Char) : List (List Char) := jsSplitCharL '\n' l

/-- JS `join` with a newline separator. -/
def joinNl : List (List Char) → List Char
  | [] => []
  | [l] => l
  | l :: rest => l ++ '\n' :: joinNl rest

/-- The line-wise stage of `cleanJsonString`: split on newlines, map the
per-line transformation, join back. -/
def transformLines (l : List Char) : List Char :=
  joinNl ((splitNl l).map transformLine)

/-- Embedding of `cleanJsonString` from src/util.ts: trim, extract the
content of a markdown fence block when the extraction regex matches with
a non-empty group, strip remaining opening and closing fences, normalise
smart quotes, escape unescaped quotes inside property values line by
line, remove trailing commas before closing brackets, and trim. -/
def cleanJsonStringL (s : List Char) : List Char :=
  let c0 := jsTrimL s
  let c1 :=
    match fenceFirstMatch c0 true with
    | some g => if g.isEmpty then c0 else g
    | none => c0
  let c2 := stripOpenFences c1 true
  let c3 := stripCloseFences c2
  let c4 := c3.map normalizeQuoteChar
  let c5 := transformLines c4
  let c6 := stripTrailingCommasL c5
  jsTrimL c6

/-- Embedding of `cleanJsonString` on strings. -/
def cleanJsonString (s : String) : String := String.mk (cleanJsonStringL s.data)

/- ===== Theme selection =====
Embedding of the deterministic theme selector that exists in two
revisions: src/storyService.ts (EARLY_LEVEL_THEMES /
INTERMEDIATE_LEVEL_THEMES, result fields early / intermediate) and
src/util.ts (CONVERSATIONAL_THEMES / NARRATIVE_THEMES, result fields
conversational / narrative).  `Math.sin` is a platform-defined
double-valued (hence rational-valued) function, so the embedding takes
the pseudo-random function as a parameter: `seededRandom sinf` is the
exact-arithmetic reading of the source, and theorems about the guard
against out-of-range indices quantify over an arbitrary rational-valued
pseudo-random function to cover floating-point edge results. -/

/-- A calendar date as a JS `Date` presents it: `month` is the calendar
month 1-12 (JS `getMonth()` returns it zero-based). -/
structure JSDate where
  year : Int
  month : Int
  day : Int
deriving DecidableEq

/-- JS `Date.prototype.getFullYear`. -/
def JSDate.getFullYear (d : JSDate) : Int := d.year

/-- JS `Date.prototype.getMonth` (zero-based month). -/
def JSDate.getMonth (d : JSDate) : Int := d.month - 1

/-- JS `Date.prototype.getDate` (day of month). -/
def JSDate.getDate (d : JSDate) : Int := d.day

/-- The date seed both revisions compute:
`date.getFullYear() * 10000 + (date.getMonth() + 1) * 100 + date.getDate()`. -/
def dateSeed (d : JSDate) : Int :=
  d.getFullYear * 10000 + (d.getMonth + 1) * 100 + d.getDate

/-- Embedding of `seededRandom` from both revisions:
`const x = Math.sin(seed) * 10000; return x - Math.floor(x)`, read in
exact arithmetic over the given sine function. -/
def seededRandom (sinf : Int → ℚ) (seed : Int) : ℚ :=
  sinf seed * 10000 - ⌊sinf seed * 10000⌋

namespace StoryService

/-- SUPPORTED_LANGUAGES of src/storyService.ts (and src/util.ts). -/
def SUPPORTED_LANGUAGES : List String :=
  ["English", "Spanish", "French", "German", "Italian", "Portuguese",
   "Chinese", "Japanese"]

/-- EARLY_LEVELS of src/storyService.ts (and src/util.ts). -/
def EARLY_LEVELS : List String := ["A1", "A2"]

/-- INTERMEDIATE_LEVELS of src/storyService.ts (and src/util.ts). -/
def INTERMEDIATE_LEVELS : List String := ["B1", "B2"]

/-- EARLY_LEVEL_THEMES of src/storyService.ts. -/
def EARLY_LEVEL_THEMES : List String :=
  ["planning a birthday party",
 "ordering food at a restaurant",
 "asking for directions in a new city",
 "discussing weekend plans",
 "shopping for clothes",
 "making a doctor appointment",
 "talking about the weather",
 "inviting someone to a movie",
 "discussing hobbies and interests",
 "arranging to meet a friend",
 "booking a hotel room",
 "asking about public transportation",
 "sharing vacation photos",
 "discussing favorite foods",
 "planning a picnic",
 "talking about pets",
 "asking for recipe recommendations",
 "discussing a recent concert or event",
 "making gym or exercise plans",
 "talking about family members",
 "discussing daily routines",
 "asking for book recommendations",
 "planning a study session",
 "talking about sports or games",
 "discussing morning coffee habits",
 "arranging a group dinner",
 "talking about a new job",
 "discussing apartment hunting",
 "planning a beach day",
 "talking about learning a new skill",
 "discussing favorite TV shows",
 "arranging a carpool",
 "talking about grocery shopping",
 "planning a hiking trip",
 "discussing phone or tech problems",
 "talking about the gym or fitness",
 "arranging a video call",
 "discussing a wedding or celebration",
 "planning a surprise party",
 "talking about buying furniture",
 "discussing home repairs",
 "arranging pet care while traveling",
 "talking about cooking dinner",
 "planning a road trip",
 "discussing concert tickets",
 "talking about starting a garden",
 "arranging a moving day",
 "discussing seasonal activities",
 "planning a museum visit",
 "talking about neighborhood news",
 "discussing car troubles",
 "arranging childcare",
 "talking about a new restaurant",
 "planning holiday decorations",
 "discussing gift ideas",
 "talking about recycling or sustainability",
 "arranging a study abroad program",
 "discussing favorite music",
 "planning a volunteer activity",
 "talking about a farmers market",
 "discussing online shopping",
 "arranging a photography session",
 "talking about board game night",
 "planning a potluck dinner",
 "discussing bike routes",
 "talking about a yoga or dance class",
 "arranging a book club meeting",
 "discussing a new coffee shop",
 "planning a karaoke night",
 "talking about home organization",
 "discussing local festivals",
 "arranging a dog park meetup",
 "talking about starting a business",
 "planning a craft project",
 "discussing apartment decorating",
 "talking about meal prep",
 "arranging a language exchange",
 "discussing climate and seasons",
 "planning a camping adventure",
 "talking about visiting relatives",
 "discussing New Year resolutions",
 "arranging a painting class",
 "talking about smart home devices",
 "planning a wine tasting",
 "discussing thrift store finds",
 "talking about running a marathon",
 "arranging a garage sale",
 "discussing a documentary",
 "planning a costume party",
 "talking about adopting a pet",
 "discussing budgeting and saving",
 "arranging a trivia night",
 "talking about trying new cuisines",
 "planning a spa day",
 "discussing home security",
 "talking about getting a haircut",
 "arranging a gaming tournament",
 "discussing subscription services",
 "planning a charity event"]

/-- INTERMEDIATE_LEVEL_THEMES of src/storyService.ts. -/
def INTERMEDIATE_LEVEL_THEMES : List String :=
  ["debating remote work versus office work",
 "discussing career change considerations",
 "explaining work-life balance strategies",
 "negotiating a raise or promotion",
 "handling conflict with a coworker",
 "comparing freelancing to traditional employment",
 "planning professional development goals",
 "discussing effective team collaboration",
 "giving constructive feedback to a colleague",
 "exploring networking strategies",
 "debating social media impact on relationships",
 "discussing online privacy concerns",
 "sharing digital detox experiences",
 "exploring AI and automation in daily life",
 "comparing online versus in-store shopping",
 "discussing streaming services and content",
 "debating digital learning versus traditional education",
 "explaining cryptocurrency and digital payments",
 "discussing smart home technology pros and cons",
 "exploring screen time and health effects",
 "discussing different music genres and their history",
 "debating the benefits of routine versus spontaneity",
 "sharing favorite childhood memories",
 "comparing handwriting versus typing",
 "discussing city parks and recreational spaces",
 "exploring different photography styles",
 "discussing home gardening techniques",
 "debating morning versus evening routines",
 "comparing different types of exercise",
 "discussing memory improvement techniques",
 "exploring mental health awareness",
 "debating alternative medicine versus traditional",
 "discussing nutrition myths and facts",
 "comparing fitness trends and effectiveness",
 "explaining sleep hygiene and productivity",
 "sharing stress management techniques",
 "discussing preventive healthcare approaches",
 "exploring work-related health issues",
 "debating mindfulness and meditation benefits",
 "comparing healthcare experiences",
 "discussing generational differences in technology use",
 "exploring family traditions and customs",
 "debating urban versus rural living",
 "discussing the value of different hobbies",
 "exploring effective communication skills",
 "discussing time management for busy schedules",
 "debating the importance of work-life boundaries",
 "exploring strategies for maintaining motivation",
 "discussing volunteer work and community service",
 "sharing community involvement experiences",
 "comparing book versus movie adaptations",
 "discussing media consumption habits",
 "debating the appeal of nostalgia",
 "exploring reality TV influence on society",
 "discussing museum and art accessibility",
 "exploring language preservation efforts",
 "debating music streaming versus physical media",
 "discussing celebrity culture impact",
 "exploring different film genres",
 "discussing podcast popularity reasons",
 "sharing adult learning experiences",
 "discussing overcoming perfectionism",
 "comparing time management philosophies",
 "exploring habit-building strategies",
 "discussing public speaking anxiety",
 "debating financial literacy importance",
 "sharing creative hobbies and their benefits",
 "discussing mentorship relationships",
 "exploring the self-improvement industry",
 "comparing goal-setting strategies",
 "discussing maintaining long-distance friendships",
 "exploring family expectations versus personal choices",
 "debating dating in the digital age",
 "discussing multi-generational households",
 "exploring the choice to have children",
 "debating work friendships boundaries",
 "comparing cultural differences in parenting",
 "discussing solo living versus roommates",
 "exploring community building in neighborhoods",
 "discussing neighborly disputes resolution",
 "debating minimalism versus collecting",
 "exploring subscription service value",
 "discussing smart shopping strategies",
 "comparing gig economy pros and cons",
 "discussing housing market challenges",
 "debating saving versus investing strategies",
 "exploring secondhand shopping benefits",
 "discussing brand loyalty in modern times",
 "exploring consumer rights awareness",
 "debating sharing economy services",
 "discussing online degrees credibility",
 "exploring lifelong learning importance",
 "debating student loan management",
 "discussing gap year benefits and drawbacks",
 "exploring different education paths",
 "comparing vocational training to university",
 "discussing different learning styles",
 "sharing study abroad experiences",
 "debating technology use in classrooms",
 "exploring critical thinking skills development",
 "discussing respectful tourism practices",
 "exploring cultural sensitivity while traveling",
 "debating digital nomad lifestyle",
 "discussing language learning while traveling",
 "exploring travel budgeting strategies",
 "comparing travel planning approaches",
 "debating adventure travel versus relaxation",
 "sharing solo travel experiences",
 "discussing cultural shock adjustment",
 "exploring wildlife watching and nature tourism",
 "debating plant-based diet considerations",
 "discussing food allergies and dining out",
 "exploring meal planning strategies",
 "discussing restaurant tipping culture",
 "debating cooking skills importance",
 "exploring ethnic cuisine authenticity",
 "discussing seasonal cooking and local ingredients",
 "debating intermittent fasting trends",
 "exploring farmers markets and local food",
 "comparing cooking from scratch to convenience foods",
 "discussing side hustles and passive income",
 "exploring imposter syndrome in professional life",
 "debating college major selection factors",
 "discussing burnout prevention strategies",
 "exploring personal finance apps and budgeting",
 "debating rent versus buy decisions",
 "discussing creative problem-solving approaches",
 "exploring the four-day work week concept"]

/-- Result shape of `selectThemesForDate` in src/storyService.ts. -/
structure ThemePair where
  early : String
  intermediate : String
deriving DecidableEq

/-- Embedding of `selectThemesForDate` from src/storyService.ts,
parameterised by the pseudo-random function actually used for the two
index computations. -/
def selectThemesForDateWith (rnd : Int → ℚ) (date : JSDate) : ThemePair :=
  let seed := dateSeed date
  let earlyConversationIndex : Int :=
    ⌊rnd seed * (EARLY_LEVEL_THEMES.length : ℚ)⌋
  let intermediateConversationIndex : Int :=
    ⌊rnd (seed + 1) * (INTERMEDIATE_LEVEL_THEMES.length : ℚ)⌋
  { early := jsOrElse (jsIndex EARLY_LEVEL_THEMES earlyConversationIndex) "",
    intermediate :=
      jsOrElse (jsIndex INTERMEDIATE_LEVEL_THEMES intermediateConversationIndex) "" }

/-- `selectThemesForDate` of src/storyService.ts: the pseudo-random
function is `seededRandom` over the platform sine. -/
def selectThemesForDate (sinf : Int → Rat) (date : JSDate) : ThemePair :=
  selectThemesForDateWith (seededRandom sinf) date

end StoryService

namespace Util

/-- CONVERSATIONAL_THEMES of src/util.ts. -/
def CONVERSATIONAL_THEMES : List String :=
  ["planning a birthday party",
 "ordering food at a restaurant",
 "asking for directions in a new city",
 "discussing weekend plans",
 "shopping for clothes",
 "making a doctor appointment",
 "talking about the weather",
 "inviting someone to a movie",
 "discussing hobbies and interests",
 "arranging to meet a friend",
 "booking a hotel room",
 "asking about public transportation",
 "sharing vacation photos",
 "discussing favorite foods",
 "planning a picnic",
 "talking about pets",
 "asking for recipe recommendations",
 "discussing a recent concert or event",
 "making gym or exercise plans",
 "talking about family members",
 "discussing daily routines",
 "asking for book recommendations",
 "planning a study session",
 "talking about sports or games",
 "discussing morning coffee habits",
 "arranging a group dinner",
 "talking about a new job",
 "discussing apartment hunting",
 "planning a beach day",
 "talking about learning a new skill",
 "discussing favorite TV shows",
 "arranging a carpool",
 "talking about grocery shopping",
 "planning a hiking trip",
 "discussing phone or tech problems",
 "talking about the gym or fitness",
 "arranging a video call",
 "discussing a wedding or celebration",
 "planning a surprise party",
 "talking about buying furniture",
 "discussing home repairs",
 "arranging pet care while traveling",
 "talking about cooking dinner",
 "planning a road trip",
 "discussing concert tickets",
 "talking about starting a garden",
 "arranging a moving day",
 "discussing seasonal activities",
 "planning a museum visit",
 "talking about neighborhood news",
 "discussing car troubles",
 "arranging childcare",
 "talking about a new restaurant",
 "planning holiday decorations",
 "discussing gift ideas",
 "talking about recycling or sustainability",
 "arranging a study abroad program",
 "discussing favorite music",
 "planning a volunteer activity",
 "talking about a farmers market",
 "discussing online shopping",
 "arranging a photography session",
 "talking about board game night",
 "planning a potluck dinner",
 "discussing bike routes",
 "talking about a yoga or dance class",
 "arranging a book club meeting",
 "discussing a new coffee shop",
 "planning a karaoke night",
 "talking about home organization",
 "discussing local festivals",
 "arranging a dog park meetup",
 "talking about starting a business",
 "planning a craft project",
 "discussing apartment decorating",
 "talking about meal prep",
 "arranging a language exchange",
 "discussing climate and seasons",
 "planning a camping adventure",
 "talking about visiting relatives",
 "discussing New Year resolutions",
 "arranging a painting class",
 "talking about smart home devices",
 "planning a wine tasting",
 "discussing thrift store finds",
 "talking about running a marathon",
 "arranging a garage sale",
 "discussing a documentary",
 "planning a costume party",
 "talking about adopting a pet",
 "discussing budgeting and saving",
 "arranging a trivia night",
 "talking about trying new cuisines",
 "planning a spa day",
 "discussing home security",
 "talking about getting a haircut",
 "arranging a gaming tournament",
 "discussing subscription services",
 "planning a charity event"]

/-- NARRATIVE_THEMES of src/util.ts. -/
def NARRATIVE_THEMES : List String :=
  ["a magical object with unexpected consequences",
 "overcoming a lifelong fear",
 "an unlikely friendship between opposites",
 "discovering a hidden family secret",
 "a journey to find something lost",
 "learning to forgive oneself",
 "a missed opportunity and second chances",
 "the wisdom found in nature",
 "a mysterious stranger who changes everything",
 "choosing between two paths",
 "the cost of ambition",
 "finding courage in a crisis",
 "a lesson about honesty",
 "the power of a single act of kindness",
 "breaking free from tradition",
 "a message that arrives too late",
 "the true meaning of home",
 "learning humility through failure",
 "an unexpected inheritance",
 "the consequences of greed",
 "finding beauty in imperfection",
 "a promise that must be kept",
 "the weight of a secret",
 "discovering inner strength",
 "a choice between love and duty",
 "the value of patience",
 "an old rivalry renewed",
 "learning to let go",
 "a chance encounter that changes fate",
 "the price of perfection",
 "finding hope in darkness",
 "a journey of self-discovery",
 "the danger of assumptions",
 "learning from elders",
 "a talent hidden for too long",
 "the healing power of time",
 "a competition with unexpected results",
 "discovering what truly matters",
 "the consequences of jealousy",
 "a voice that must be heard",
 "learning acceptance",
 "a sacrifice for the greater good",
 "the danger of pride",
 "finding peace after conflict",
 "a gift that comes with responsibility",
 "learning empathy through experience",
 "a plan that goes wrong",
 "the importance of trust",
 "a memory that resurfaces",
 "choosing principles over convenience",
 "the value of simplicity",
 "an adventure that teaches wisdom",
 "learning gratitude",
 "a transformation through hardship",
 "the power of determination",
 "a reunion after years apart",
 "discovering hidden talents",
 "the folly of rushing",
 "learning cooperation",
 "a risk that pays off",
 "the importance of timing",
 "a misunderstanding with serious consequences",
 "finding joy in small things",
 "a debt that must be repaid",
 "learning from mistakes",
 "an unexpected mentor",
 "the cost of deception",
 "finding one\x27s true calling",
 "a test of character",
 "the value of perseverance",
 "an old wound reopened",
 "learning compassion",
 "a tradition questioned",
 "the power of words",
 "finding strength in community",
 "a discovery that challenges beliefs",
 "learning resourcefulness",
 "a journey home",
 "the danger of complacency",
 "finding clarity through solitude",
 "a bargain with consequences",
 "learning balance",
 "an injustice confronted",
 "the value of authenticity",
 "a bridge between worlds",
 "finding redemption",
 "a cycle that must be broken",
 "learning mindfulness",
 "an echo from the past",
 "the importance of preparation",
 "finding connection in isolation",
 "a harvest after long labor",
 "learning responsibility",
 "a mask that falls away",
 "the power of vulnerability",
 "finding light in the ordinary",
 "a teacher who learns from the student",
 "the value of boundaries",
 "a storm weathered together"]

/-- Result shape of `selectThemesForDate` in src/util.ts. -/
structure ThemePair where
  conversational : String
  narrative : String
deriving DecidableEq

/-- Embedding of `selectThemesForDate` from src/util.ts, parameterised by
the pseudo-random function actually used for the two index
computations. -/
def selectThemesForDateWith (rnd : Int → ℚ) (date : JSDate) : ThemePair :=
  let seed := dateSeed date
  let conversationalIndex : Int :=
    ⌊rnd seed * (CONVERSATIONAL_THEMES.length : ℚ)⌋
  let narrativeIndex : Int :=
    ⌊rnd (seed + 1) * (NARRATIVE_THEMES.length : ℚ)⌋
  { conversational := jsOrElse (jsIndex CONVERSATIONAL_THEMES conversationalIndex) "",
    narrative := jsOrElse (jsIndex NARRATIVE_THEMES narrativeIndex) "" }

/-- `selectThemesForDate` of src/util.ts: the pseudo-random function is
`seededRandom` over the platform sine. -/
def selectThemesForDate (sinf : Int → Rat) (date : JSDate) : ThemePair :=
  selectThemesForDateWith (seededRandom sinf) date

end Util

/-- Theme selection for one tier as the spec (section 4.1) words it:
derive the integer seed `year*10000 + month*100 + day`, derive the
sub-seed `seed + tierOffset`, feed it through the deterministic
pseudo-random function to a value in [0,1), multiply by the theme-list
length and floor to get an index; out-of-range indices fall back to the
empty string. -/
def specSelectTheme (rnd : Int → ℚ) (year month day : Int)
    (tierThemes : List String) (tierOffset : Int) : String :=
  let seed := year * 10000 + month * 100 + day
  let idx : Int := ⌊rnd (seed + tierOffset) * (tierThemes.length : ℚ)⌋
  jsOrElse (jsIndex tierThemes idx) ""

/- ===== Story content, provider and store model ===== -/

/-- One dialogue turn of StoryContent. -/
structure Message where
  text : String
  sender : String
deriving DecidableEq

/-- One comprehension question of StoryContent. -/
structure Question where
  question : String
  options : List String
  correctAnswer : Int
deriving DecidableEq

/-- The StoryContent TypeScript type (src/storyService.ts 5-14,
src/util.ts 5-14): `story` and `messages` are optional.  The
`toolUse.input as StoryContent` cast in the source is an unchecked type
assertion, so any value of this shape can flow out of extraction. -/
structure StoryContent where
  title : String
  story : Option String := none
  messages : Option (List Message) := none
  questions : List Question := []
deriving DecidableEq

/-- A block of a provider message: either text or a tool-use block
carrying the input payload. -/
inductive ContentBlock
  | text (s : String)
  | toolUse (input : StoryContent)
deriving DecidableEq

/-- The JS `content?.find((block) => block.type === 'tool_use')` followed
by reading `.input`: the first tool-use block's payload, if any. -/
def findToolUse (content : Option (List ContentBlock)) : Option StoryContent :=
  match content with
  | none => none
  | some blocks =>
    match blocks.find? (fun b => match b with
      | ContentBlock.toolUse _ => true
      | _ => false) with
    | some (ContentBlock.toolUse input) => some input
    | _ => none

/-- The extraction step shared by `generateStory` and the batch drain
(src/storyService.ts 433-441 and 534-540): find the tool-use block and
return its input unchecked; a missing block is the thrown error. -/
def extractToolUseStory (content : Option (List ContentBlock)) :
    Except String StoryContent :=
  match findToolUse content with
  | some s => Except.ok s
  | none => Except.error "No tool use found in batch response"

/-- The per-request outcome inside a batch result. -/
inductive ResultBody
  | succeeded (content : Option (List ContentBlock))
  | errored (error : String)
  | otherResult (typeName : String)
deriving DecidableEq

/-- One entry of a batch results stream. -/
structure BatchItem where
  custom_id : String
  result : ResultBody
deriving DecidableEq

/-- Provider-side processing status of a batch. -/
inductive ProcessingStatus
  | in_progress
  | ended
  | canceling
deriving DecidableEq

/-- One batch as the list endpoint reports it. -/
structure Batch where
  id : String
  processing_status : ProcessingStatus
deriving DecidableEq

/-- The provider state: the batch list in the order the list endpoint
returns it (most recent first) and the results stream of each batch. -/
structure Provider where
  batches : List Batch
  results : String → List BatchItem

/-- The file store: the set of paths whose files exist (`access`
succeeds exactly on them); `writeFile` with `mkdir recursive` adds a
path. -/
abbrev Store := List String

/-- One performed `writeFile`: the path and the story serialised there. -/
structure WriteOp where
  path : String
  content : StoryContent
deriving DecidableEq

/- ===== JS parseInt and Date normalisation =====
`processBatches` turns the 8-character date field of a custom id into a
JS `Date` via `parseInt` on substrings and `new Date(year, month, day)`,
and the /generate-stories handler computes tomorrow via
`setDate(getDate() + 1)`; both rely on the ECMAScript calendar
normalisation embedded here. -/

/-- Decimal digit test. -/
def isDecDigit (c : Char) : Bool := '0' ≤ c && c ≤ '9'

/-- Hexadecimal digit test. -/
def isHexDigit (c : Char) : Bool :=
  ('0' ≤ c && c ≤ '9') || ('a' ≤ c && c ≤ 'f') || ('A' ≤ c && c ≤ 'F')

/-- Value of a hexadecimal digit. -/
def hexDigitVal (c : Char) : Nat :=
  if '0' ≤ c && c ≤ '9' then c.toNat - '0'.toNat
  else if 'a' ≤ c && c ≤ 'f' then c.toNat - 'a'.toNat + 10
  else c.toNat - 'A'.toNat + 10

/-- Fold a digit list in the given base. -/
def foldDigits (base : Nat) (l : List Char) : Nat :=
  l.foldl (fun acc c => acc * base + hexDigitVal c) 0

/-- ECMAScript `parseInt(string)` with an unspecified radix: skip
leading whitespace, an optional sign, a `0x`/`0X` prefix switches to
hexadecimal, then the longest digit prefix is parsed; no digits yield
NaN (`none`). -/
def jsParseInt (s : String) : Option Int :=
  let l := s.data.dropWhile isJsSpace
  let (sign, l2) : Int × List Char :=
    match l with
    | '-' :: r => (-1, r)
    | '+' :: r => (1, r)
    | _ => (1, l)
  if l2.take 2 = ['0', 'x'] || l2.take 2 = ['0', 'X'] then
    let ds := (l2.drop 2).takeWhile isHexDigit
    if ds.isEmpty then none else some (sign * (foldDigits 16 ds : Int))
  else
    let ds := l2.takeWhile isDecDigit
    if ds.isEmpty then none else some (sign * (foldDigits 10 ds : Int))

/-- Day count from 1970-01-01 of the civil date (y, m, d) with m in
1..12, for arbitrary day-of-month offsets (the standard era-based
algorithm; division rounds toward zero as in the reference
implementation, made exact by the era shifts). -/
def daysFromCivil (y m d : Int) : Int :=
  let y2 := if m ≤ 2 then y - 1 else y
  let era := (if 0 ≤ y2 then y2 else y2 - 399) / 400
  let yoe := y2 - era * 400
  let mp := if m > 2 then m - 3 else m + 9
  let doy := (153 * mp + 2) / 5 + d - 1
  let doe := yoe * 365 + yoe / 4 - yoe / 100 + doy
  era * 146097 + doe - 719468

/-- Civil date from a day count from 1970-01-01 (inverse of
`daysFromCivil` for in-range days of month). -/
def civilFromDays (z : Int) : Int × Int × Int :=
  let z2 := z + 719468
  let era := (if 0 ≤ z2 then z2 else z2 - 146096) / 146097
  let doe := z2 - era * 146097
  let yoe := (doe - doe / 1460 + doe / 36524 - doe / 146096) / 365
  let y := yoe + era * 400
  let doy := doe - (365 * yoe + yoe / 4 - yoe / 100)
  let mp := (5 * doy + 2) / 153
  let d := doy - (153 * mp + 2) / 5 + 1
  let m := if mp < 10 then mp + 3 else mp - 9
  (if m ≤ 2 then y + 1 else y, m, d)

/-- ECMAScript MakeDay normalisation without the two-digit-year remap:
the month overflows into the year with floor division, the day of month
is then added as a day offset. -/
def normalizeDate (y m0 d : Int) : JSDate :=
  let ym := y + Int.fdiv m0 12
  let mn := m0 - 12 * Int.fdiv m0 12
  let days := daysFromCivil ym (mn + 1) 1 + (d - 1)
  let c := civilFromDays days
  ⟨c.1, c.2.1, c.2.2⟩

/-- JS `new Date(year, month, day)`: years 0-99 map to 1900-1999, then
the calendar normalisation applies. -/
def jsMakeDate (y m0 d : Int) : JSDate :=
  normalizeDate (if 0 ≤ y && y ≤ 99 then y + 1900 else y) m0 d

/-- JS `new Date(y, m, d)` from `parseInt` components: any NaN component
gives an Invalid Date (`none`). -/
def jsDateOf (y m0 d : Option Int) : Option JSDate :=
  match y, m0, d with
  | some y2, some m2, some d2 => some (jsMakeDate y2 m2 d2)
  | _, _, _ => none

/-- JS `d.setDate(d.getDate() + n)`: day-of-month arithmetic with
calendar normalisation and no two-digit-year remap. -/
def jsAddDays (d : JSDate) (n : Int) : JSDate :=
  normalizeDate d.year (d.month - 1) (d.day + n)

namespace StoryService

/- ===== StoryGenerationService (src/storyService.ts 292-601) ===== -/

/-- Path probed by `checkStoriesExistForDate` (src/storyService.ts
302-327): `process.cwd()` + stories/year/month/day, year unpadded,
month and day padded to two digits, then the lowercased first supported
language and first early level with the JS-falsy fallbacks of the
source. -/
def probeFilePath (cwd : String) (date : JSDate) : String :=
  let year := jsIntToString date.getFullYear
  let month := padStart2 (jsIntToString (date.getMonth + 1))
  let day := padStart2 (jsIntToString date.getDate)
  let firstLanguage := jsOrElse ((SUPPORTED_LANGUAGES.get? 0).map jsToLower) "spanish"
  let firstLevel := jsOrElse ((EARLY_LEVELS.get? 0).map jsToLower) "a1"
  cwd ++ "/stories/" ++ year ++ "/" ++ month ++ "/" ++ day ++ "/" ++
    firstLanguage ++ "/" ++ firstLevel ++ "/story.json"

/-- Probe path for a possibly invalid JS Date: the getters of an Invalid
Date are NaN, whose string form is `NaN` (which `padStart` leaves
alone). -/
def probeFilePathOfDate (cwd : String) (date : Option JSDate) : String :=
  match date with
  | some d => probeFilePath cwd d
  | none => cwd ++ "/stories/NaN/NaN/NaN/" ++
      jsOrElse ((SUPPORTED_LANGUAGES.get? 0).map jsToLower) "spanish" ++ "/" ++
      jsOrElse ((EARLY_LEVELS.get? 0).map jsToLower) "a1" ++ "/story.json"

/-- Embedding of `checkStoriesExistForDate`: `access` on the probe path
succeeds exactly when the store holds it. -/
def checkStoriesExistForDate (cwd : String) (fs : Store) (date : Option JSDate) : Bool :=
  fs.contains (probeFilePathOfDate cwd date)

/-- One item of the inner drain loop of `processBatches`
(src/storyService.ts 408-485): a succeeded result with a truthy
8-character date field, truthy language and level fields and a tool-use
block produces one file write; errored results, other result types,
malformed ids and missing tool-use blocks are logged and skipped
(the throw is caught per item). -/
def drainItem (cwd : String) (item : BatchItem) : List WriteOp :=
  match item.result with
  | ResultBody.succeeded content =>
    let parts := jsSplitChar '-' item.custom_id
    let resultDateStr := jsOrElse (jsIndex parts 0) ""
    let language := jsOrElse (jsIndex parts 1) ""
    let level := jsOrElse (jsIndex parts 2) ""
    if resultDateStr = "" || language = "" || level = "" ||
        resultDateStr.data.length ≠ 8 then
      []
    else
      let resultYear := jsSubstring resultDateStr 0 4
      let resultMonth := jsSubstring resultDateStr 4 6
      let resultDay := jsSubstring resultDateStr 6 8
      match findToolUse content with
      | none => []
      | some story =>
        [{ path := cwd ++ "/stories/" ++ resultYear ++ "/" ++ resultMonth ++ "/" ++
             resultDay ++ "/" ++ language ++ "/" ++ level ++ "/story.json",
           content := story }]
  | ResultBody.errored _ => []
  | ResultBody.otherResult _ => []

/-- Outcome of draining one completed batch. -/
inductive BatchOutcome
  | skipped
  | erroredBatch
  | processed (writes : List WriteOp)
deriving DecidableEq

/-- Drain of one completed batch, the body of the outer loop of
`processBatches` (src/storyService.ts 364-495): an empty results stream
skips the batch; a first custom id whose date field is falsy or not 8
characters marks the whole batch errored; a batch whose date already has
stories on disk is skipped; otherwise every result is drained
independently. -/
def drainBatch (cwd : String) (fs : Store) (items : List BatchItem) : BatchOutcome :=
  match items with
  | [] => BatchOutcome.skipped
  | first :: _ =>
    let sampleCustomId := first.custom_id
    let dateStr := jsOrElse (jsIndex (jsSplitChar '-' sampleCustomId) 0) ""
    if dateStr = "" || dateStr.data.length ≠ 8 then BatchOutcome.erroredBatch
    else
      let year := jsParseInt (jsSubstring dateStr 0 4)
      let month := (jsParseInt (jsSubstring dateStr 4 6)).map (fun m => m - 1)
      let day := jsParseInt (jsSubstring dateStr 6 8)
      let batchDate := jsDateOf year month day
      if checkStoriesExistForDate cwd fs batchDate then BatchOutcome.skipped
      else BatchOutcome.processed (items.flatMap (drainItem cwd))

/-- Return shape of `processBatches`. -/
structure ProcessBatchesResult where
  processedBatchIDs : List String
  errorBatchIDs : List String
  inProgressBatchIDs : List String
deriving DecidableEq

/-- The loop of `processBatches` over the completed batches, threading
the store because a drained batch's writes land on disk before the next
batch's existence check runs. -/
def processBatchesGo (cwd : String) (provider : Provider) :
    List Batch → Store → List String × List String × List WriteOp
  | [], _ => ([], [], [])
  | b :: rest, fs =>
    match drainBatch cwd fs (provider.results b.id) with
    | BatchOutcome.skipped => processBatchesGo cwd provider rest fs
    | BatchOutcome.erroredBatch =>
      let r := processBatchesGo cwd provider rest fs
      (r.1, b.id :: r.2.1, r.2.2)
    | BatchOutcome.processed writes =>
      let r := processBatchesGo cwd provider rest (fs ++ writes.map WriteOp.path)
      (b.id :: r.1, r.2.1, writes ++ r.2.2)

/-- Embedding of `processBatches` (src/storyService.ts 332-505): the
list endpoint with `limit: 2` yields the first two entries of the
provider's batch list (most recent first); the `ended` ones are drained
in order, the `in_progress` ones are reported; the performed writes are
returned alongside the id lists.  The network-error catch paths are not
modelled (the pure provider never throws). -/
def processBatches (cwd : String) (provider : Provider) (fs : Store) :
    ProcessBatchesResult × List WriteOp :=
  let page := provider.batches.take 2
  let completedBatches := page.filter
    (fun b => b.processing_status = ProcessingStatus.ended)
  let inProgressBatchIDs := (page.filter
    (fun b => b.processing_status = ProcessingStatus.in_progress)).map Batch.id
  let r := processBatchesGo cwd provider completedBatches fs
  ({ processedBatchIDs := r.1, errorBatchIDs := r.2.1,
     inProgressBatchIDs := inProgressBatchIDs }, r.2.2)

/-- One batch sub-request as built by `generateDailyStories`
(src/storyService.ts 561-586): the composite custom id and the
(language, level, theme) triple that the prompt text and tool schema are
functions of (no claim touches the prompt or schema content, so the
request records their inputs). -/
structure BatchRequest where
  custom_id : String
  language : String
  level : String
  theme : String
deriving DecidableEq

/-- The composite id built at submission (src/storyService.ts 571):
year unpadded, month and day padded, then the lowercased language and
level, dash-separated. -/
def customIdOf (date : JSDate) (language level : String) : String :=
  jsIntToString date.getFullYear ++ padStart2 (jsIntToString (date.getMonth + 1)) ++
    padStart2 (jsIntToString date.getDate) ++ "-" ++ jsToLower language ++ "-" ++
    jsToLower level

/-- The date field of the composite id, `${year}${month}${day}`. -/
def dateFieldOf (date : JSDate) : String :=
  jsIntToString date.getFullYear ++ padStart2 (jsIntToString (date.getMonth + 1)) ++
    padStart2 (jsIntToString date.getDate)

/-- The request-building loop of `generateDailyStories`
(src/storyService.ts 543-601): one request per (language, level) in
nested order, the composite custom id, and the tier theme selected by
EARLY_LEVELS membership. -/
def generateDailyStoriesRequests (sinf : Int → Rat) (languages levels : List String)
    (date : JSDate) : List BatchRequest :=
  let themes := selectThemesForDate sinf date
  languages.flatMap (fun language =>
    levels.map (fun level =>
      { custom_id := customIdOf date language level,
        language := language,
        level := level,
        theme := if EARLY_LEVELS.contains level then themes.early
          else themes.intermediate }))

/-- Modelled from the spec: `checkInProgressBatch` is called by the
/generate-stories handler of src/unnamed/part_000 but its implementation
is not among the provided sources.  Spec section 4.6: "check for a batch
still `in_progress` — if found, report its identifier and refuse to
submit a new one"; section 5: the in-flight state "is derived by
querying the provider's batch list".  The model reports the identifier
of the first in-progress batch of the provider's list, if any. -/
def checkInProgressBatch (provider : Provider) : Option String :=
  ((provider.batches.filter
    (fun b => b.processing_status = ProcessingStatus.in_progress)).map Batch.id).head?

/-- Modelled from the spec: `processCompletedBatches` is called by the
/generate-stories handler of src/unnamed/part_000 but its implementation
is not among the provided sources.  Spec section 4.6: draining a
completed batch runs the extractor on every outcome, writes successes to
the Store, continues past failures, and reports processed and error
counts.  The model drains every `ended` batch of the provider's list
with the per-batch drain embedded above and returns the counts of
processed and errored batches together with the performed writes. -/
def processCompletedBatches (cwd : String) (provider : Provider) (fs : Store) :
    (Nat × Nat) × List WriteOp :=
  let r := processBatchesGo cwd provider
    (provider.batches.filter (fun b => b.processing_status = ProcessingStatus.ended)) fs
  ((r.1.length, r.2.1.length), r.2.2)

/-- Result of one invocation of the /generate-stories handler: the
in-progress batch id it reported (if it stopped on the in-flight guard),
the dates it submitted one batch each for, and the store after the
drain-phase writes. -/
structure TriggerOutcome where
  inProgressReported : Option String
  submittedDates : List JSDate
  fsAfter : Store
deriving DecidableEq

/-- Embedding of the GET /generate-stories handler of
src/unnamed/part_000 (lines 33-150): process completed batches first;
if a batch is in progress, report its id and submit nothing; otherwise
probe the store for today and tomorrow and call `generateDailyStories`
once per date whose probe missed (each call creates one provider
batch). -/
def generateStoriesTrigger (cwd : String) (provider : Provider) (fs : Store)
    (now : JSDate) : TriggerOutcome :=
  let drained := processCompletedBatches cwd provider fs
  let fs1 := fs ++ drained.2.map WriteOp.path
  match checkInProgressBatch provider with
  | some id =>
    { inProgressReported := some id, submittedDates := [], fsAfter := fs1 }
  | none =>
    let tomorrow := jsAddDays now 1
    let todayExists := checkStoriesExistForDate cwd fs1 (some now)
    let tomorrowExists := checkStoriesExistForDate cwd fs1 (some tomorrow)
    let datesToGenerate :=
      (if !todayExists then [now] else []) ++
      (if !tomorrowExists then [tomorrow] else [])
    { inProgressReported := none, submittedDates := datesToGenerate, fsAfter := fs1 }

end StoryService

/- ===== Spec-side definitions =====
These follow the words of the specification and are compared with the
source-side embeddings in the theorems; they are never used inside the
source-side definitions. -/

/-- The StoryContent invariants of spec section 3 that concern the
quiz: exactly 3 questions, each with exactly 4 options and a
`correctAnswer` integer indexing validly into them. -/
def validQuizShape (s : StoryContent) : Prop :=
  s.questions.length = 3 ∧
  ∀ q ∈ s.questions, q.options.length = 4 ∧ 0 ≤ q.correctAnswer ∧ q.correctAnswer ≤ 3

instance (s : StoryContent) : Decidable (validQuizShape s) := by
  unfold validQuizShape
  infer_instance

/-- The early-tier index computation of src/storyService.ts under a
given pseudo-random function. -/
def StoryService.earlyIndex (rnd : Int → Rat) (d : JSDate) : Int :=
  ⌊rnd (dateSeed d) * (StoryService.EARLY_LEVEL_THEMES.length : ℚ)⌋

/-- The intermediate-tier index computation of src/storyService.ts under
a given pseudo-random function. -/
def StoryService.intermediateIndex (rnd : Int → Rat) (d : JSDate) : Int :=
  ⌊rnd (dateSeed d + 1) * (StoryService.INTERMEDIATE_LEVEL_THEMES.length : ℚ)⌋

/-- The conversational index computation of src/util.ts under a given
pseudo-random function. -/
def Util.conversationalIndex (rnd : Int → Rat) (d : JSDate) : Int :=
  ⌊rnd (dateSeed d) * (Util.CONVERSATIONAL_THEMES.length : ℚ)⌋

/-- The narrative index computation of src/util.ts under a given
pseudo-random function. -/
def Util.narrativeIndex (rnd : Int → Rat) (d : JSDate) : Int :=
  ⌊rnd (dateSeed d + 1) * (Util.NARRATIVE_THEMES.length : ℚ)⌋

/-- Already-clean text in the sense of spec section 4.4: trimmed, free
of backtick fences and smart quotes, and left unchanged by the line-wise
quote-escaping pass and the trailing-comma removal. -/
def CleanText (x : String) : Prop :=
  jsTrim x = x ∧
  (∀ c ∈ x.data, c ≠ '`') ∧
  (∀ c ∈ x.data, normalizeQuoteChar c = c) ∧
  transformLines x.data = x.data ∧
  stripTrailingCommasL x.data = x.data

instance (x : String) : Decidable (CleanText x) := by
  unfold CleanText
  infer_instance

/- ===== Concrete inputs used by the witnesses and counterexamples ===== -/

/-- A well-formed three-question quiz. -/
def sampleQuestions : List Question :=
  [{ question := "Q1", options := ["a", "b", "c", "d"], correctAnswer := 0 },
   { question := "Q2", options := ["a", "b", "c", "d"], correctAnswer := 1 },
   { question := "Q3", options := ["a", "b", "c", "d"], correctAnswer := 2 }]

/-- A StoryContent satisfying the section-3 quiz invariants. -/
def sampleStory : StoryContent :=
  { title := "Title",
    messages := some [
      { text := "Hello", sender := "Ana" }, { text := "Hi", sender := "Ben" },
      { text := "How are you", sender := "Ana" }, { text := "Fine", sender := "Ben" },
      { text := "Nice day", sender := "Ana" }, { text := "Yes", sender := "Ben" },
      { text := "See you", sender := "Ana" }, { text := "Bye", sender := "Ben" },
      { text := "Take care", sender := "Ana" }, { text := "You too", sender := "Ben" }],
    questions := sampleQuestions }

/-- A payload violating every section-3 quiz invariant: one question,
two options, answer index out of range. -/
def invalidStory : StoryContent :=
  { title := "t",
    questions := [{ question := "Q", options := ["a", "b"], correctAnswer := 7 }] }

/-- A provider message whose tool-use block carries the invalid
payload. -/
def invalidOutcomeContent : Option (List ContentBlock) :=
  some [ContentBlock.toolUse invalidStory]

/-- A batch item that succeeds with the given language/level and a
well-formed story. -/
def goodItem (language level : String) : BatchItem :=
  { custom_id := "20251104-" ++ language ++ "-" ++ level,
    result := ResultBody.succeeded (some [ContentBlock.toolUse sampleStory]) }

/-- The drain scenario of the partial-failure property: ten outcomes,
the three malformed ones being an errored result, a succeeded result
with no tool-use block, and a succeeded result with a short date field
in its custom id. -/
def drainTenItems : List BatchItem :=
  [goodItem "english" "a1",
   goodItem "english" "a2",
   { custom_id := "20251104-spanish-a1", result := ResultBody.errored "overloaded" },
   goodItem "spanish" "a2",
   { custom_id := "20251104-french-a1",
     result := ResultBody.succeeded (some [ContentBlock.text "no tool use"]) },
   goodItem "french" "a2",
   { custom_id := "xx-german-a1",
     result := ResultBody.succeeded (some [ContentBlock.toolUse sampleStory]) },
   goodItem "german" "a2",
   goodItem "italian" "a1",
   goodItem "italian" "a2"]

/-- Provider holding one ended batch whose results are the ten-outcome
drain scenario. -/
def drainTenProvider : Provider :=
  { batches := [{ id := "batch1", processing_status := ProcessingStatus.ended }],
    results := fun _ => drainTenItems }

/-- Provider whose ended batch has a malformed FIRST custom id followed
by a well-formed item. -/
def badFirstProvider : Provider :=
  { batches := [{ id := "bf1", processing_status := ProcessingStatus.ended }],
    results := fun id => if id = "bf1" then
      [{ custom_id := "xxx-english-a1",
         result := ResultBody.succeeded (some [ContentBlock.toolUse sampleStory]) },
       goodItem "english" "a2"]
      else [] }

/-- Provider with two in-progress batches in the window and an ended
batch outside it. -/
def windowProvider : Provider :=
  { batches := [{ id := "w1", processing_status := ProcessingStatus.in_progress },
                { id := "w2", processing_status := ProcessingStatus.in_progress },
                { id := "w3", processing_status := ProcessingStatus.ended }],
    results := fun id => if id = "w3" then [goodItem "english" "a1"] else [] }

/-- Provider with no batches at all. -/
def emptyProvider : Provider := { batches := [], results := fun _ => [] }

/-- Provider whose only batch is in progress. -/
def inProgressProvider : Provider :=
  { batches := [{ id := "ip1", processing_status := ProcessingStatus.in_progress }],
    results := fun _ => [] }

/-- A store already holding the probe files for 2025-11-04 and
2025-11-05. -/
def probedStore : Store :=
  ["/stories/2025/11/04/english/a1/story.json",
   "/stories/2025/11/05/english/a1/story.json"]

/-- An already-clean JSON text: trimmed, fence-free, smart-quote-free,
escaped quotes inside values, no trailing commas. -/
def cleanSample : String :=
  "\x7b\n  \"title\": \"He said \\\"hi\\\"\",\n  \"story\": \"Bonjour\"\n\x7d"

/-- Provider whose ended batch has a well-formed first item, a malformed
custom id in the middle, and a well-formed last item. -/
def midBadProvider : Provider :=
  { batches := [{ id := "mb1", processing_status := ProcessingStatus.ended }],
    results := fun _ =>
      [goodItem "english" "a1",
       { custom_id := "xx-bad",
         result := ResultBody.succeeded (some [ContentBlock.toolUse sampleStory]) },
       goodItem "english" "a2"] }

/- ===== Theorems ===== -/

theorem map_fixed_points {f : Char → Char} :
    ∀ l : List Char, (∀ c ∈ l, f c = c) → l.map f = l := by
  intro l h
  induction l with
  | nil => rfl
  | cons c rest ih =>
    simp only [List.map_cons]
    rw [h c (by simp), ih (fun x hx => h x (by simp [hx]))]

theorem store_contains_append_left {l w : List String} {p : String}
    (h : l.contains p = true) : (l ++ w).contains p = true := by
  simp only [List.elem_eq_mem, List.mem_append, decide_eq_true_eq] at *
  exact Or.inl h

theorem backtick_mem_of_take3 {l : List Char}
    (h : l.take 3 = ['`', '`', '`']) : '`' ∈ l := by
  have h2 : '`' ∈ l.take 3 := by rw [h]; simp
  exact List.mem_of_mem_take h2

theorem fenceMatchAt_none {l : List Char} (h : '`' ∉ l) :
    fenceMatchAt l = none := by
  unfold fenceMatchAt
  rw [if_neg (fun ht => h (backtick_mem_of_take3 ht))]

theorem fenceFirstMatchGo_none : ∀ (fuel : Nat) (l : List Char) (b : Bool), '`' ∉ l →
    fenceFirstMatchGo fuel l b = none := by
  intro fuel
  induction fuel with
  | zero => intro l b _; rfl
  | succ f ih =>
    intro l b h
    have h1 : fenceMatchAt l = none := fenceMatchAt_none h
    cases l with
    | nil => cases b <;> simp [fenceFirstMatchGo, h1]
    | cons c rest =>
      have h2 : fenceFirstMatchGo f rest (c = '\n') = none :=
        ih _ _ (fun hm => h (List.mem_cons_of_mem _ hm))
      cases b <;> simp [fenceFirstMatchGo, h1, h2]

theorem fenceFirstMatch_none (l : List Char) (b : Bool) (h : '`' ∉ l) :
    fenceFirstMatch l b = none :=
  fenceFirstMatchGo_none _ _ _ h

theorem openFenceReplMatch_none {l : List Char} (h : '`' ∉ l) :
    openFenceReplMatch l = none := by
  unfold openFenceReplMatch
  rw [if_neg (fun ht => h (backtick_mem_of_take3 ht))]

theorem stripOpenFencesGo_id : ∀ (fuel : Nat) (l : List Char) (b : Bool), '`' ∉ l →
    stripOpenFencesGo fuel l b = l := by
  intro fuel
  induction fuel with
  | zero => intro l b _; rfl
  | succ f ih =>
    intro l b h
    cases l with
    | nil => cases b <;> rfl
    | cons c rest =>
      have h1 : openFenceReplMatch (c :: rest) = none := openFenceReplMatch_none h
      have h2 : stripOpenFencesGo f rest (c = '\n') = rest :=
        ih _ _ (fun hm => h (List.mem_cons_of_mem _ hm))
      cases b <;> simp [stripOpenFencesGo, h1, h2]

theorem stripOpenFences_id (l : List Char) (b : Bool) (h : '`' ∉ l) :
    stripOpenFences l b = l :=
  stripOpenFencesGo_id _ _ _ h

theorem closeFenceRepl_none {l : List Char} (h : '`' ∉ l) :
    closeFenceRepl l = none := by
  unfold closeFenceRepl
  rw [if_neg (fun ht => h (backtick_mem_of_take3 ht))]

theorem closeFenceAt_none {l : List Char} (h : '`' ∉ l) :
    closeFenceAt l = none := by
  unfold closeFenceAt
  have h1 : closeFenceRepl (l.drop 1) = none :=
    closeFenceRepl_none (fun hm => h (List.mem_of_mem_drop hm))
  have h2 : closeFenceRepl l = none := closeFenceRepl_none h
  rw [List.drop_one] at h1
  split <;> simp [h1, h2]

theorem stripCloseFencesGo_id : ∀ (fuel : Nat) (l : List Char), '`' ∉ l →
    stripCloseFencesGo fuel l = l := by
  intro fuel
  induction fuel with
  | zero => intro l _; rfl
  | succ f ih =>
    intro l h
    cases l with
    | nil => rfl
    | cons c rest =>
      have h1 : closeFenceAt (c :: rest) = none := closeFenceAt_none h
      have h2 : stripCloseFencesGo f rest = rest :=
        ih _ (fun hm => h (List.mem_cons_of_mem _ hm))
      simp [stripCloseFencesGo, h1, h2]

theorem stripCloseFences_id (l : List Char) (h : '`' ∉ l) :
    stripCloseFences l = l :=
  stripCloseFencesGo_id _ _ h

/-- C6 (counterexample): cleanJsonString is not idempotent.  The
trailing-comma pass scans left to right in one sweep, so `,,]` loses
only its second comma on the first cleaning and the remaining `,]` is
reduced further by a second cleaning. -/
theorem cleanJsonString_not_idempotent :
    cleanJsonString (cleanJsonString ",,]") ≠ cleanJsonString ",,]" := by
  decide

/-- C6 (amended): re-cleaning already-clean text is a no-op: on text
that is trimmed, contains no backtick and no smart quote, and is left
unchanged by the line-wise quote-escaping pass and the trailing-comma
removal, cleanJsonString is the identity, hence idempotent there. -/
theorem cleanJsonString_noop_on_clean :
    ∀ x : String, CleanText x →
      cleanJsonString x = x ∧ cleanJsonString (cleanJsonString x) = cleanJsonString x := by
  intro x h
  obtain ⟨htrim, hbt, hsq, hlines, hcommas⟩ := h
  have hbt2 : '`' ∉ x.data := fun hm => hbt '`' hm rfl
  have htrimL : jsTrimL x.data = x.data := congrArg String.data htrim
  have hclean : cleanJsonStringL x.data = x.data := by
    simp only [cleanJsonStringL]
    rw [htrimL]
    rw [fenceFirstMatch_none _ _ hbt2]
    show jsTrimL (stripTrailingCommasL (transformLines (List.map normalizeQuoteChar
      (stripCloseFences (stripOpenFences x.data true))))) = x.data
    rw [stripOpenFences_id _ _ hbt2, stripCloseFences_id _ hbt2,
      map_fixed_points _ hsq, hlines, hcommas, htrimL]
  have hid : cleanJsonString x = x := by
    show String.mk (cleanJsonStringL x.data) = x
    rw [hclean]
  exact ⟨hid, by rw [hid, hid]⟩

/-- C6 (witness): a concrete already-clean JSON text on which cleaning
is a no-op. -/
theorem cleanJsonString_noop_on_clean_witness :
    CleanText cleanSample ∧ cleanJsonString cleanSample = cleanSample :=
  ⟨by decide, (cleanJsonString_noop_on_clean cleanSample (by decide)).1⟩

theorem dateSeed_eq (d : JSDate) :
    dateSeed d = d.year * 10000 + d.month * 100 + d.day := by
  unfold dateSeed JSDate.getFullYear JSDate.getMonth JSDate.getDate
  ring

/-- C2: selectThemesForDate is deterministic and follows the specified
algorithm: for every calendar date the two theme strings are a pure
function of the date (two calls agree); the seed is
year*10000 + month*100 + day, literally 20251104 for 2025-11-04; each
tier feeds the sub-seeds seed and seed+1 through frac(sin(s)*10000)
(exact-arithmetic reading, sine abstracted), producing a value in [0,1),
multiplies by the tier theme-list length and floors to select the index;
both the storyService.ts and the util.ts revisions agree with the
spec-side algorithm. -/
theorem selectThemes_deterministic_follows_spec :
    (∀ (sinf : Int → ℚ) (d : JSDate),
      StoryService.selectThemesForDate sinf d = StoryService.selectThemesForDate sinf d ∧
      Util.selectThemesForDate sinf d = Util.selectThemesForDate sinf d) ∧
    dateSeed ⟨2025, 11, 4⟩ = 20251104 ∧
    (∀ (sinf : Int → ℚ) (d : JSDate),
      (StoryService.selectThemesForDate sinf d).early =
        specSelectTheme (seededRandom sinf) d.year d.month d.day
          StoryService.EARLY_LEVEL_THEMES 0 ∧
      (StoryService.selectThemesForDate sinf d).intermediate =
        specSelectTheme (seededRandom sinf) d.year d.month d.day
          StoryService.INTERMEDIATE_LEVEL_THEMES 1 ∧
      (Util.selectThemesForDate sinf d).conversational =
        specSelectTheme (seededRandom sinf) d.year d.month d.day
          Util.CONVERSATIONAL_THEMES 0 ∧
      (Util.selectThemesForDate sinf d).narrative =
        specSelectTheme (seededRandom sinf) d.year d.month d.day
          Util.NARRATIVE_THEMES 1) ∧
    (∀ (sinf : Int → ℚ) (s : Int),
      0 ≤ seededRandom sinf s ∧ seededRandom sinf s < 1) := by
  refine ⟨fun _ _ => ⟨rfl, rfl⟩, by decide, ?_, ?_⟩
  · intro sinf d
    have hs : d.year * 10000 + d.month * 100 + d.day + 0 = dateSeed d := by
      rw [dateSeed_eq]; ring
    have hs1 : d.year * 10000 + d.month * 100 + d.day + 1 = dateSeed d + 1 := by
      rw [dateSeed_eq]
    refine ⟨?_, ?_, ?_, ?_⟩ <;>
      simp only [StoryService.selectThemesForDate, Util.selectThemesForDate,
        StoryService.selectThemesForDateWith, Util.selectThemesForDateWith,
        specSelectTheme, hs, hs1]
  · intro sinf s
    have h1 : seededRandom sinf s = Int.fract (sinf s * 10000) := rfl
    rw [h1]
    exact ⟨Int.fract_nonneg _, Int.fract_lt_one _⟩

theorem jsIndex_oob_empty (l : List String) (i : Int)
    (h : i < 0 ∨ (l.length : Int) ≤ i) : jsOrElse (jsIndex l i) "" = "" := by
  unfold jsIndex jsOrElse
  rcases h with h | h
  · rw [if_neg (by omega)]
  · rw [if_pos (by omega), List.get?_eq_none.mpr (by omega)]

/-- C8: selectThemesForDate is total (it is a function in the embedding)
and guards every index: for any pseudo-random function, including ones
modelling floating-point edge results that land on or past the list
length, an out-of-range tier index makes the function return the empty
string for that tier instead of an undefined value, in both the
storyService.ts and the util.ts revisions. -/
theorem selectThemes_oob_index_falls_back_empty :
    ∀ (rnd : Int → ℚ) (d : JSDate),
      ((StoryService.earlyIndex rnd d < 0 ∨ 99 ≤ StoryService.earlyIndex rnd d) →
        (StoryService.selectThemesForDateWith rnd d).early = "") ∧
      ((StoryService.intermediateIndex rnd d < 0 ∨
          128 ≤ StoryService.intermediateIndex rnd d) →
        (StoryService.selectThemesForDateWith rnd d).intermediate = "") ∧
      ((Util.conversationalIndex rnd d < 0 ∨ 99 ≤ Util.conversationalIndex rnd d) →
        (Util.selectThemesForDateWith rnd d).conversational = "") ∧
      ((Util.narrativeIndex rnd d < 0 ∨ 99 ≤ Util.narrativeIndex rnd d) →
        (Util.selectThemesForDateWith rnd d).narrative = "") := by
  intro rnd d
  refine ⟨fun h => ?_, fun h => ?_, fun h => ?_, fun h => ?_⟩
  · show jsOrElse (jsIndex StoryService.EARLY_LEVEL_THEMES
      (StoryService.earlyIndex rnd d)) "" = ""
    exact jsIndex_oob_empty _ _ (by simpa using h)
  · show jsOrElse (jsIndex StoryService.INTERMEDIATE_LEVEL_THEMES
      (StoryService.intermediateIndex rnd d)) "" = ""
    exact jsIndex_oob_empty _ _ (by simpa using h)
  · show jsOrElse (jsIndex Util.CONVERSATIONAL_THEMES
      (Util.conversationalIndex rnd d)) "" = ""
    exact jsIndex_oob_empty _ _ (by simpa using h)
  · show jsOrElse (jsIndex Util.NARRATIVE_THEMES
      (Util.narrativeIndex rnd d)) "" = ""
    exact jsIndex_oob_empty _ _ (by simpa using h)

/-- C8 (witness): a pseudo-random function that returns exactly 1 (the
floating-point edge case frac can round to) drives the early index to
the list length and the function returns the empty string. -/
theorem selectThemes_oob_index_falls_back_empty_witness :
    (99 ≤ StoryService.earlyIndex (fun _ => 1) ⟨2025, 11, 4⟩) ∧
    (StoryService.selectThemesForDateWith (fun _ => 1) ⟨2025, 11, 4⟩).early = "" := by
  have h99 : StoryService.earlyIndex (fun _ => 1) ⟨2025, 11, 4⟩ = 99 := by
    unfold StoryService.earlyIndex
    rw [show StoryService.EARLY_LEVEL_THEMES.length = 99 from rfl]
    norm_num
  refine ⟨by omega, ?_⟩
  exact (selectThemes_oob_index_falls_back_empty (fun _ => 1) ⟨2025, 11, 4⟩).1
    (Or.inr (by omega))

theorem processBatchesGo_results_only (cwd : String) (p q : Provider)
    (h : p.results = q.results) :
    ∀ (bs : List Batch) (fs : Store),
      StoryService.processBatchesGo cwd p bs fs =
        StoryService.processBatchesGo cwd q bs fs := by
  intro bs
  induction bs with
  | nil => intro fs; rfl
  | cons b rest ih =>
    intro fs
    simp only [StoryService.processBatchesGo, h, ih]

/-- C9: processBatches inspects only the two most recently listed
provider batches: its entire result is unchanged when the provider's
batch list is truncated to its first two entries, the in-progress ids it
reports are exactly those of the window, and concretely a completed
batch behind two in-progress ones is neither drained nor reported. -/
theorem processBatches_observes_two_newest :
    (∀ (cwd : String) (provider : Provider) (fs : Store),
      StoryService.processBatches cwd provider fs =
        StoryService.processBatches cwd ⟨provider.batches.take 2, provider.results⟩ fs) ∧
    (∀ (cwd : String) (provider : Provider) (fs : Store),
      (StoryService.processBatches cwd provider fs).1.inProgressBatchIDs =
        ((provider.batches.take 2).filter
          (fun b => b.processing_status = ProcessingStatus.in_progress)).map Batch.id) ∧
    (StoryService.processBatches "" windowProvider []).1.processedBatchIDs = [] ∧
    (StoryService.processBatches "" windowProvider []).1.errorBatchIDs = [] ∧
    (StoryService.processBatches "" windowProvider []).2 = [] ∧
    (StoryService.processBatches "" windowProvider []).1.inProgressBatchIDs =
      ["w1", "w2"] := by
  refine ⟨?_, ?_, by decide, by decide, by decide, by decide⟩
  · intro cwd provider fs
    simp only [StoryService.processBatches, List.take_take]
    rw [processBatchesGo_results_only cwd provider
      ⟨provider.batches.take 2, provider.results⟩ rfl]
    norm_num
  · intro cwd provider fs
    simp [StoryService.processBatches]

/-- C10: the store existence probe checks exactly the single file
stories/YYYY/MM/DD/english/a1/story.json, with `english` and `a1` the
lowercased first supported language and first early level; the result is
the store's membership at that one path, so no other (language, level)
file can influence it. -/
theorem checkStoriesExist_probes_english_a1_only :
    (∀ (cwd : String) (fs : Store) (d : JSDate),
      StoryService.checkStoriesExistForDate cwd fs (some d) =
        fs.contains (cwd ++ "/stories/" ++ jsIntToString d.year ++ "/" ++
          padStart2 (jsIntToString d.month) ++ "/" ++ padStart2 (jsIntToString d.day) ++
          "/" ++ "english" ++ "/" ++ "a1" ++ "/story.json")) ∧
    jsOrElse ((StoryService.SUPPORTED_LANGUAGES.get? 0).map jsToLower) "spanish" =
      "english" ∧
    jsOrElse ((StoryService.EARLY_LEVELS.get? 0).map jsToLower) "a1" = "a1" ∧
    StoryService.probeFilePath "" ⟨2025, 11, 4⟩ =
      "/stories/2025/11/04/english/a1/story.json" := by
  refine ⟨?_, by decide, by decide, by decide⟩
  intro cwd fs d
  simp only [StoryService.checkStoriesExistForDate, StoryService.probeFilePathOfDate,
    StoryService.probeFilePath]
  rw [show jsOrElse ((StoryService.SUPPORTED_LANGUAGES.get? 0).map jsToLower) "spanish" =
      "english" from by decide]
  rw [show jsOrElse ((StoryService.EARLY_LEVELS.get? 0).map jsToLower) "a1" =
      "a1" from by decide]
  rw [show d.getMonth + 1 = d.month from by unfold JSDate.getMonth; omega]
  rfl

/-- C1 (counterexample): a payload violating every section-3 quiz
invariant (one question, two options, answer index 7) is extracted
successfully by the structured-path extractor and written verbatim to
the Store by the batch drain: no validation against the section-3
invariants happens before returning or writing. -/
theorem extraction_accepts_invalid_payload :
    extractToolUseStory invalidOutcomeContent = Except.ok invalidStory ∧
    ¬ validQuizShape invalidStory ∧
    StoryService.drainItem ""
        { custom_id := "20251104-english-a1",
          result := ResultBody.succeeded invalidOutcomeContent } =
      [{ path := "/stories/2025/11/04/english/a1/story.json",
         content := invalidStory }] := by
  refine ⟨rfl, by decide, by decide⟩

theorem findToolUse_cons_text (s : String) (rest : List ContentBlock) :
    findToolUse (some (ContentBlock.text s :: rest)) = findToolUse (some rest) := by
  simp [findToolUse, List.find?]

theorem findToolUse_cons_tool (i : StoryContent) (rest : List ContentBlock) :
    findToolUse (some (ContentBlock.toolUse i :: rest)) = some i := by
  simp [findToolUse, List.find?]

theorem findToolUse_some_iff (blocks : List ContentBlock) :
    (∃ s, findToolUse (some blocks) = some s) ↔
      ∃ s, ContentBlock.toolUse s ∈ blocks := by
  induction blocks with
  | nil => simp [findToolUse]
  | cons b rest ih =>
    cases b with
    | text s =>
      rw [findToolUse_cons_text]
      simp only [List.mem_cons]
      constructor
      · intro ⟨s2, h2⟩
        obtain ⟨s3, h3⟩ := ih.mp ⟨s2, h2⟩
        exact ⟨s3, Or.inr h3⟩
      · rintro ⟨s2, h2 | h2⟩
        · exact absurd h2 (by simp)
        · exact ih.mpr ⟨s2, h2⟩
    | toolUse i =>
      rw [findToolUse_cons_tool]
      exact ⟨fun _ => ⟨i, by simp⟩, fun _ => ⟨i, rfl⟩⟩

/-- C1 (amended): extraction performs no section-3 validation: on the
structured path it succeeds exactly when the response carries a tool-use
block, returning that block's payload unchecked, and the batch drain
writes whatever payload extraction returned (valid quiz shape or not) to
the Store path of its custom id. -/
theorem extraction_rejects_only_missing_tool_use :
    (∀ blocks : List ContentBlock,
      (∃ s, extractToolUseStory (some blocks) = Except.ok s) ↔
        ∃ s, ContentBlock.toolUse s ∈ blocks) ∧
    (∀ (cwd : String) (story : StoryContent) (content : Option (List ContentBlock)),
      findToolUse content = some story →
      StoryService.drainItem cwd
          { custom_id := "20251104-english-a1",
            result := ResultBody.succeeded content } =
        [{ path := cwd ++ "/stories/2025/11/04/english/a1/story.json",
           content := story }]) := by
  constructor
  · intro blocks
    rw [← findToolUse_some_iff blocks]
    unfold extractToolUseStory
    constructor
    · intro ⟨s, hs⟩
      match h : findToolUse (some blocks) with
      | some s2 => exact ⟨s2, rfl⟩
      | none => rw [h] at hs; exact absurd hs (by simp)
    · intro ⟨s, hs⟩
      rw [hs]
      exact ⟨s, rfl⟩
  · intro cwd story content h
    simp +decide only [StoryService.drainItem, h]
    rw [if_neg not_false]
    refine congrArg (fun p => [WriteOp.mk p story]) ?_
    apply String.ext
    simp only [String.data_append, List.append_assoc]
    exact congrArg (fun t => cwd.data ++ t) (by decide)

/-- C1 (amended, witness): a well-formed story behind a tool-use block
is extracted and written at the path of its custom id. -/
theorem extraction_rejects_only_missing_tool_use_witness :
    findToolUse (some [ContentBlock.toolUse sampleStory]) = some sampleStory ∧
    StoryService.drainItem ""
        { custom_id := "20251104-english-a1",
          result := ResultBody.succeeded (some [ContentBlock.toolUse sampleStory]) } =
      [{ path := "" ++ "/stories/2025/11/04/english/a1/story.json",
         content := sampleStory }] :=
  ⟨by decide,
   extraction_rejects_only_missing_tool_use.2 "" sampleStory
     (some [ContentBlock.toolUse sampleStory]) (by decide)⟩

/-- C3 (counterexample): in the drain of one completed batch with 3 of
10 outcomes malformed, exactly 7 story files are written, but the drain
returns no per-item error counter equal to 3: the only error field of
its return value, errorBatchIDs, stays empty (per-item failures are only
logged). -/
theorem drain_ten_no_item_error_counter :
    (StoryService.processBatches "" drainTenProvider []).2.length = 7 ∧
    (StoryService.processBatches "" drainTenProvider []).1.errorBatchIDs.length ≠ 3 := by
  exact ⟨by decide, by decide⟩

/-- C3 (amended): individual outcome failures are independent — a
malformed item contributes no write and removing it leaves every other
item's writes unchanged — and in the concrete 3-of-10 drain exactly 7
files are written while the batch is reported processed with an empty
errorBatchIDs list and no per-item error counter. -/
theorem drain_failures_independent_seven_writes :
    (∀ (cwd : String) (L1 L2 : List BatchItem) (bad : BatchItem),
      StoryService.drainItem cwd bad = [] →
      (L1 ++ bad :: L2).flatMap (StoryService.drainItem cwd) =
        (L1 ++ L2).flatMap (StoryService.drainItem cwd)) ∧
    (StoryService.processBatches "" drainTenProvider []).2.length = 7 ∧
    (StoryService.processBatches "" drainTenProvider []).1.processedBatchIDs =
      ["batch1"] ∧
    (StoryService.processBatches "" drainTenProvider []).1.errorBatchIDs = [] := by
  refine ⟨?_, by decide, by decide, by decide⟩
  intro cwd L1 L2 bad h
  simp [List.flatMap_append, List.flatMap_cons, h]

/-- C3 (amended, witness): removing the errored middle outcome of a
three-item drain leaves the two good items' writes unchanged. -/
theorem drain_failures_independent_seven_writes_witness :
    StoryService.drainItem ""
        { custom_id := "20251104-spanish-a1",
          result := ResultBody.errored "overloaded" } = [] ∧
    ([goodItem "english" "a1"] ++
        { custom_id := "20251104-spanish-a1",
          result := ResultBody.errored "overloaded" } :: [goodItem "english" "a2"]).flatMap
        (StoryService.drainItem "") =
      ([goodItem "english" "a1"] ++ [goodItem "english" "a2"]).flatMap
        (StoryService.drainItem "") :=
  ⟨by decide,
   drain_failures_independent_seven_writes.1 "" [goodItem "english" "a1"]
     [goodItem "english" "a2"]
     { custom_id := "20251104-spanish-a1", result := ResultBody.errored "overloaded" }
     (by decide)⟩

/-- C4 (counterexample): with no batch in flight and an empty store, one
generation trigger submits one batch per missing date — two batches
(today and tomorrow) in a single invocation — so two provider batches
can be in flight at once, contradicting the at-most-one claim. -/
theorem trigger_submits_two_batches :
    (StoryService.generateStoriesTrigger "" emptyProvider []
      ⟨2025, 11, 4⟩).submittedDates.length = 2 ∧
    (StoryService.generateStoriesTrigger "" emptyProvider []
      ⟨2025, 11, 4⟩).inProgressReported = none := by
  exact ⟨by decide, by decide⟩

/-- C4 (amended): whenever the provider reports an in-progress batch,
the trigger creates no new batch and reports an existing in-progress
batch identifier; a single trigger can submit up to two batches (one per
missing date), so up to two — not one — batches can be in flight. -/
theorem trigger_inflight_guard :
    (∀ (cwd : String) (provider : Provider) (fs : Store) (now : JSDate),
      (∃ b ∈ provider.batches, b.processing_status = ProcessingStatus.in_progress) →
      (StoryService.generateStoriesTrigger cwd provider fs now).submittedDates = [] ∧
      ∃ id, (StoryService.generateStoriesTrigger cwd provider fs
          now).inProgressReported = some id ∧
        id ∈ (provider.batches.filter
          (fun b => b.processing_status = ProcessingStatus.in_progress)).map Batch.id) ∧
    (∀ (cwd : String) (provider : Provider) (fs : Store) (now : JSDate),
      (StoryService.generateStoriesTrigger cwd provider fs
        now).submittedDates.length ≤ 2) := by
  constructor
  · intro cwd provider fs now hex
    obtain ⟨b, hb, hstat⟩ := hex
    have hmem : b ∈ provider.batches.filter
        (fun b => b.processing_status = ProcessingStatus.in_progress) :=
      List.mem_filter.mpr ⟨hb, by simp [hstat]⟩
    obtain ⟨id0, rest, hl⟩ : ∃ id0 rest, (provider.batches.filter
        (fun b => b.processing_status = ProcessingStatus.in_progress)).map Batch.id =
          id0 :: rest := by
      cases hcase : (provider.batches.filter
          (fun b => b.processing_status = ProcessingStatus.in_progress)).map Batch.id with
      | nil =>
        rw [List.map_eq_nil_iff] at hcase
        rw [hcase] at hmem
        exact absurd hmem (List.not_mem_nil _)
      | cons a t => exact ⟨a, t, rfl⟩
    have hchk : StoryService.checkInProgressBatch provider = some id0 := by
      unfold StoryService.checkInProgressBatch
      rw [hl]
      rfl
    refine ⟨?_, id0, ?_, ?_⟩
    · simp [StoryService.generateStoriesTrigger, hchk]
    · simp [StoryService.generateStoriesTrigger, hchk]
    · rw [hl]
      simp
  · intro cwd provider fs now
    simp only [StoryService.generateStoriesTrigger]
    cases hc : StoryService.checkInProgressBatch provider with
    | some id => simp
    | none =>
      split_ifs <;> simp

/-- C4 (amended, witness): a provider with one in-progress batch makes
the trigger submit nothing. -/
theorem trigger_inflight_guard_witness :
    (∃ b ∈ inProgressProvider.batches,
      b.processing_status = ProcessingStatus.in_progress) ∧
    (StoryService.generateStoriesTrigger "" inProgressProvider []
      ⟨2025, 11, 4⟩).submittedDates = [] :=
  ⟨⟨⟨"ip1", ProcessingStatus.in_progress⟩, by decide, rfl⟩,
   (trigger_inflight_guard.1 "" inProgressProvider [] ⟨2025, 11, 4⟩
     ⟨⟨"ip1", ProcessingStatus.in_progress⟩, by decide, rfl⟩).1⟩

theorem probe_monotone (cwd : String) (fs w : Store) (d : Option JSDate)
    (h : StoryService.checkStoriesExistForDate cwd fs d = true) :
    StoryService.checkStoriesExistForDate cwd (fs ++ w) d = true := by
  unfold StoryService.checkStoriesExistForDate at *
  exact store_contains_append_left h

theorem trigger_fsAfter (cwd : String) (provider : Provider) (fs : Store)
    (now : JSDate) :
    (StoryService.generateStoriesTrigger cwd provider fs now).fsAfter =
      fs ++ (StoryService.processCompletedBatches cwd provider fs).2.map
        WriteOp.path := by
  simp only [StoryService.generateStoriesTrigger]
  cases hc : StoryService.checkInProgressBatch provider <;> simp [hc]

/-- C5: the generation trigger is idempotent with respect to the cache:
when the exists probe succeeds for both today and tomorrow, one
invocation submits zero batches and a second invocation on the resulting
store again submits zero; and any date whose probe succeeds is never
among the submitted dates. -/
theorem trigger_skips_existing_dates :
    ∀ (cwd : String) (provider : Provider) (fs : Store) (now : JSDate),
      ((StoryService.checkStoriesExistForDate cwd fs (some now) = true ∧
        StoryService.checkStoriesExistForDate cwd fs
          (some (jsAddDays now 1)) = true) →
        (StoryService.generateStoriesTrigger cwd provider fs now).submittedDates = [] ∧
        (StoryService.generateStoriesTrigger cwd provider
          (StoryService.generateStoriesTrigger cwd provider fs now).fsAfter
          now).submittedDates = []) ∧
      (∀ d : JSDate, StoryService.checkStoriesExistForDate cwd fs (some d) = true →
        d ∉ (StoryService.generateStoriesTrigger cwd provider fs now).submittedDates) := by
  intro cwd provider fs now
  have main : ∀ fs2 : Store,
      StoryService.checkStoriesExistForDate cwd fs2 (some now) = true →
      StoryService.checkStoriesExistForDate cwd fs2 (some (jsAddDays now 1)) = true →
      (StoryService.generateStoriesTrigger cwd provider fs2 now).submittedDates = [] := by
    intro fs2 h1 h2
    simp only [StoryService.generateStoriesTrigger]
    cases hc : StoryService.checkInProgressBatch provider with
    | some id => simp [hc]
    | none =>
      have h1b := probe_monotone cwd fs2
        ((StoryService.processCompletedBatches cwd provider fs2).2.map WriteOp.path)
        (some now) h1
      have h2b := probe_monotone cwd fs2
        ((StoryService.processCompletedBatches cwd provider fs2).2.map WriteOp.path)
        (some (jsAddDays now 1)) h2
      simp [hc, h1b, h2b]
  constructor
  · intro ⟨h1, h2⟩
    refine ⟨main fs h1 h2, ?_⟩
    rw [trigger_fsAfter]
    exact main _ (probe_monotone _ _ _ _ h1) (probe_monotone _ _ _ _ h2)
  · intro d hd
    simp only [StoryService.generateStoriesTrigger]
    cases hc : StoryService.checkInProgressBatch provider with
    | some id => simp [hc]
    | none =>
      have hdb := probe_monotone cwd fs
        ((StoryService.processCompletedBatches cwd provider fs).2.map WriteOp.path)
        (some d) hd
      simp only [hc]
      intro hmem
      simp only [List.mem_append] at hmem
      rcases hmem with hmem | hmem
      · split_ifs at hmem with hA
        · simp only [List.mem_singleton] at hmem
          subst hmem
          simp [hdb] at hA
        · exact absurd hmem (List.not_mem_nil _)
      · split_ifs at hmem with hB
        · simp only [List.mem_singleton] at hmem
          subst hmem
          simp [hdb] at hB
        · exact absurd hmem (List.not_mem_nil _)

/-- C5 (witness): with the probe files for 2025-11-04 and 2025-11-05
present, the trigger submits nothing. -/
theorem trigger_skips_existing_dates_witness :
    (StoryService.checkStoriesExistForDate "" probedStore (some ⟨2025, 11, 4⟩) = true ∧
     StoryService.checkStoriesExistForDate "" probedStore
       (some (jsAddDays ⟨2025, 11, 4⟩ 1)) = true) ∧
    (StoryService.generateStoriesTrigger "" emptyProvider probedStore
      ⟨2025, 11, 4⟩).submittedDates = [] :=
  ⟨⟨by decide, by decide⟩,
   ((trigger_skips_existing_dates "" emptyProvider probedStore ⟨2025, 11, 4⟩).1
     ⟨by decide, by decide⟩).1⟩

theorem digitChar_ne_dash (k : Nat) : digitChar k ≠ '-' := by
  unfold digitChar
  split_ifs <;> decide

theorem natDigitsGo_ne_dash : ∀ (fuel n : Nat), ∀ c ∈ natDigitsGo fuel n, c ≠ '-' := by
  intro fuel
  induction fuel with
  | zero => intro n c hc; simp [natDigitsGo] at hc
  | succ f ih =>
    intro n c hc
    simp only [natDigitsGo] at hc
    split at hc
    · simp only [List.mem_singleton] at hc
      subst hc
      exact digitChar_ne_dash n
    · rw [List.mem_append] at hc
      rcases hc with hc | hc
      · exact ih (n / 10) c hc
      · simp only [List.mem_singleton] at hc
        subst hc
        exact digitChar_ne_dash (n % 10)

theorem natDigitsGo_len1 (f n : Nat) (h : n < 10) :
    (natDigitsGo (f + 1) n).length = 1 := by
  simp [natDigitsGo, h]

theorem natDigitsGo_len2 (f n : Nat) (h1 : 10 ≤ n) (h2 : n < 100) :
    (natDigitsGo (f + 2) n).length = 2 := by
  show (natDigitsGo ((f + 1) + 1) n).length = 2
  simp only [natDigitsGo]
  rw [if_neg (by omega), if_pos (by omega : n / 10 < 10)]
  simp

theorem natDigitsGo_len3 (f n : Nat) (h1 : 100 ≤ n) (h2 : n < 1000) :
    (natDigitsGo (f + 3) n).length = 3 := by
  show (natDigitsGo (((f + 1) + 1) + 1) n).length = 3
  simp only [natDigitsGo]
  rw [if_neg (by omega), if_neg (by omega : ¬ n / 10 < 10),
    if_pos (by omega : n / 10 / 10 < 10)]
  simp

theorem natDigitsGo_len4 (f n : Nat) (h1 : 1000 ≤ n) (h2 : n < 10000) :
    (natDigitsGo (f + 4) n).length = 4 := by
  show (natDigitsGo ((((f + 1) + 1) + 1) + 1) n).length = 4
  simp only [natDigitsGo]
  rw [if_neg (by omega), if_neg (by omega : ¬ n / 10 < 10),
    if_neg (by omega : ¬ n / 10 / 10 < 10),
    if_pos (by omega : n / 10 / 10 / 10 < 10)]
  simp

theorem yearField_ok {y : Int} (h1 : 1000 ≤ y) (h2 : y ≤ 9999) :
    (jsIntToString y).data.length = 4 ∧ ∀ c ∈ (jsIntToString y).data, c ≠ '-' := by
  unfold jsIntToString
  rw [if_neg (by omega)]
  constructor
  · show (natDigits y.toNat).length = 4
    unfold natDigits
    rw [show y.toNat + 1 = (y.toNat - 3) + 4 from by omega]
    exact natDigitsGo_len4 _ _ (by omega) (by omega)
  · intro c hc
    exact natDigitsGo_ne_dash _ _ c hc

theorem monthField_ok {m : Int} (h1 : 1 ≤ m) (h2 : m ≤ 12) :
    (padStart2 (jsIntToString m)).data.length = 2 ∧
    ∀ c ∈ (padStart2 (jsIntToString m)).data, c ≠ '-' := by
  interval_cases m <;> exact ⟨by decide, by decide⟩

theorem dayField_ok {m : Int} (h1 : 1 ≤ m) (h2 : m ≤ 31) :
    (padStart2 (jsIntToString m)).data.length = 2 ∧
    ∀ c ∈ (padStart2 (jsIntToString m)).data, c ≠ '-' := by
  interval_cases m <;> exact ⟨by decide, by decide⟩

theorem jsSplitCharL_no_sep (sep : Char) : ∀ l : List Char,
    (∀ c ∈ l, c ≠ sep) → jsSplitCharL sep l = [l] := by
  intro l h
  induction l with
  | nil => rfl
  | cons c rest ih =>
    simp only [jsSplitCharL]
    rw [if_neg (h c (by simp))]
    rw [ih (fun x hx => h x (by simp [hx]))]

theorem jsSplitCharL_append_sep (sep : Char) : ∀ (A rest : List Char),
    (∀ c ∈ A, c ≠ sep) →
    jsSplitCharL sep (A ++ sep :: rest) = A :: jsSplitCharL sep rest := by
  intro A
  induction A with
  | nil =>
    intro rest _
    simp [jsSplitCharL]
  | cons a A2 ih =>
    intro rest h
    simp only [List.cons_append, jsSplitCharL]
    rw [if_neg (h a (by simp))]
    simp only [List.append_eq]
    rw [ih rest (fun c hc => h c (by simp [hc]))]

theorem customId_data (d : JSDate) (lang lvl : String) :
    (StoryService.customIdOf d lang lvl).data =
      (StoryService.dateFieldOf d).data ++
        '-' :: ((jsToLower lang).data ++ '-' :: (jsToLower lvl).data) := by
  unfold StoryService.customIdOf StoryService.dateFieldOf
  simp [String.data_append, List.append_assoc,
    show ("-" : String).data = ['-'] from rfl]

theorem dateField_data (d : JSDate) :
    (StoryService.dateFieldOf d).data =
      (jsIntToString d.getFullYear).data ++
        ((padStart2 (jsIntToString (d.getMonth + 1))).data ++
          (padStart2 (jsIntToString d.getDate)).data) := by
  unfold StoryService.dateFieldOf
  simp [String.data_append, List.append_assoc]

/-- C7 (counterexample): a custom id whose first dash-separated field is
not 8 characters is not treated as a per-item error when it sits in the
FIRST result: the whole batch is marked errored and skipped, so the
well-formed item behind it is never written. -/
theorem drain_malformed_first_id_skips_whole_batch :
    (StoryService.processBatches "" badFirstProvider []).2 = [] ∧
    (StoryService.processBatches "" badFirstProvider []).1.errorBatchIDs =
      ["bf1"] ∧
    (StoryService.processBatches "" badFirstProvider []).1.processedBatchIDs = [] := by
  exact ⟨by decide, by decide, by decide⟩

/-- C7 (amended): for every calendar date with a four-digit year and
every supported language and level, the submission-side composite id
splits back on dashes into exactly the original 8-character date field,
the lowercase language and the lowercase level; a malformed custom id in
a non-first position is a per-item error that skips only its own item
(concretely, a drain with a malformed middle id still writes the two
well-formed items and reports the batch processed), while a malformed
FIRST id marks the whole batch errored. -/
theorem customId_roundtrip_nonfirst_per_item :
    (∀ (d : JSDate) (lang lvl : String),
      1000 ≤ d.year → d.year ≤ 9999 → 1 ≤ d.month → d.month ≤ 12 →
      1 ≤ d.day → d.day ≤ 31 →
      lang ∈ StoryService.SUPPORTED_LANGUAGES →
      lvl ∈ StoryService.EARLY_LEVELS ++ StoryService.INTERMEDIATE_LEVELS →
      jsSplitChar '-' (StoryService.customIdOf d lang lvl) =
        [StoryService.dateFieldOf d, jsToLower lang, jsToLower lvl] ∧
      (StoryService.dateFieldOf d).data.length = 8) ∧
    ((StoryService.processBatches "" midBadProvider []).2.length = 2 ∧
     (StoryService.processBatches "" midBadProvider []).1.processedBatchIDs =
       ["mb1"] ∧
     (StoryService.processBatches "" midBadProvider []).1.errorBatchIDs = []) := by
  refine ⟨?_, by decide, by decide, by decide⟩
  intro d lang lvl hy1 hy2 hm1 hm2 hd1 hd2 hlang hlvl
  have hyear := yearField_ok (y := d.year) hy1 hy2
  have hmonth := monthField_ok (m := d.month) hm1 hm2
  have hday := dayField_ok (m := d.day) hd1 hd2
  have hga : d.getFullYear = d.year := rfl
  have hgb : d.getMonth + 1 = d.month := by unfold JSDate.getMonth; omega
  have hgc : d.getDate = d.day := rfl
  have hdf : ∀ c ∈ (StoryService.dateFieldOf d).data, c ≠ '-' := by
    intro c hc
    rw [dateField_data, hga, hgb, hgc] at hc
    rcases List.mem_append.mp hc with hc | hc
    · exact hyear.2 c hc
    · rcases List.mem_append.mp hc with hc | hc
      · exact hmonth.2 c hc
      · exact hday.2 c hc
  have hlangd : ∀ c ∈ (jsToLower lang).data, c ≠ '-' := by
    fin_cases hlang <;> decide
  have hlvld : ∀ c ∈ (jsToLower lvl).data, c ≠ '-' := by
    fin_cases hlvl <;> decide
  constructor
  · unfold jsSplitChar
    rw [customId_data]
    rw [jsSplitCharL_append_sep '-' (StoryService.dateFieldOf d).data _ hdf]
    rw [jsSplitCharL_append_sep '-' (jsToLower lang).data _ hlangd]
    rw [jsSplitCharL_no_sep '-' (jsToLower lvl).data hlvld]
    rfl
  · rw [dateField_data, hga, hgb, hgc]
    simp only [List.length_append]
    rw [hyear.1, hmonth.1, hday.1]

/-- C7 (amended, witness): the composite id for 2025-11-04, English, A1
splits back into its three original fields. -/
theorem customId_roundtrip_nonfirst_per_item_witness :
    (1000 ≤ (⟨2025, 11, 4⟩ : JSDate).year ∧
      "English" ∈ StoryService.SUPPORTED_LANGUAGES) ∧
    jsSplitChar '-' (StoryService.customIdOf ⟨2025, 11, 4⟩ "English" "A1") =
      [StoryService.dateFieldOf ⟨2025, 11, 4⟩, jsToLower "English", jsToLower "A1"] :=
  ⟨⟨by decide, by decide⟩,
   (customId_roundtrip_nonfirst_per_item.1 ⟨2025, 11, 4⟩ "English" "A1"
     (by decide) (by decide) (by decide) (by decide) (by decide) (by decide)
     (by decide) (by decide)).1⟩
